import Mathlib

/-!
# Verification of the ossium19 synthesis core

A shallow embedding of the per-sample signal-processing core of the
`ossian19-core` crate (oscillators, envelopes, ladder filter, LFO, FM
operator graphs, subtractive voice, voice managers, synth facade).

Machine floats (`f32`) are modelled by exact rationals `ℚ`; decimal float
literals of the source are read as the corresponding decimal rationals.
The transcendental library functions used by the code (`sin`, `tan`,
`2.0f32.powf`, the constant `PI`) have no rational counterpart, so every
definition is parametrised by an abstract interpretation `RMath` of those
four primitives; the structural claims proved below hold for every
interpretation, and concrete counterexamples instantiate it with an
interpretation that agrees with the real functions at the points used.
Rust's in-place mutation is modelled by state passing: a `tick` method of
the source becomes a function returning the pair (sample, updated state).
-/

set_option maxHeartbeats 1000000

namespace Ossian19

/-- Abstract interpretation of the transcendental `f32` primitives used by
the source: `sin x`, `tan x`, `2.0_f32.powf x` and the constant `PI`. -/
structure RMath where
  sin : ℚ → ℚ
  tan : ℚ → ℚ
  pow2 : ℚ → ℚ
  pi : ℚ

/-- Rust `f32::clamp(lo, hi)`. -/
def clampQ (x lo hi : ℚ) : ℚ :=
  if x < lo then lo else if x > hi then hi else x

/-- Rust `f32::rem_euclid(1.0)`: fractional part, always in `[0,1)`. -/
def fract1 (x : ℚ) : ℚ := x - ⌊x⌋

/-- Rust `f32::max`. -/
def maxQ (x y : ℚ) : ℚ := if x < y then y else x

-- ===========================================================================
-- envelope.rs
-- ===========================================================================

/-- `EnvelopeStage` from envelope.rs. -/
inductive EnvelopeStage where
  | Idle
  | Attack
  | Decay
  | Sustain
  | Release
deriving DecidableEq, Repr

/-- `Envelope` from envelope.rs (ADSR generator). -/
structure Envelope where
  attack : ℚ
  decay : ℚ
  sustain : ℚ
  release : ℚ
  stage : EnvelopeStage
  level : ℚ
  sample_rate : ℚ
  release_level : ℚ
deriving DecidableEq, Repr

/-- `Envelope::default()` followed by the `new(sample_rate)` override. -/
def Envelope.new (sample_rate : ℚ) : Envelope :=
  { attack := 1/100, decay := 1/10, sustain := 7/10, release := 3/10,
    stage := .Idle, level := 0, sample_rate := sample_rate, release_level := 0 }

/-- `Envelope::trigger` — any state to Attack, level kept. -/
def Envelope.trigger (e : Envelope) : Envelope :=
  { e with stage := .Attack }

/-- `Envelope::release` — modelled as `doRelease` because `release` is
already the field name, as in the source struct. -/
def Envelope.doRelease (e : Envelope) : Envelope :=
  if e.stage ≠ .Idle then
    { e with stage := .Release, release_level := e.level }
  else e

/-- `Envelope::is_idle` (`self.stage == EnvelopeStage::Idle`). -/
def Envelope.is_idle (e : Envelope) : Bool :=
  match e.stage with
  | .Idle => true
  | _ => false

/-- `Envelope::calculate_rate`. -/
def Envelope.calculate_rate (e : Envelope) (time : ℚ) : ℚ :=
  if time ≤ 0 then 1 else 1 / (time * e.sample_rate)

/-- `Envelope::tick` — returns (level, updated envelope). -/
def Envelope.tick (e : Envelope) : ℚ × Envelope :=
  match e.stage with
  | .Idle => (0, { e with level := 0 })
  | .Attack =>
      let rate := e.calculate_rate e.attack
      let l := e.level + rate
      if l ≥ 1 then (1, { e with level := 1, stage := .Decay })
      else (l, { e with level := l })
  | .Decay =>
      let rate := e.calculate_rate e.decay
      let l := e.level - rate
      if l ≤ e.sustain then (e.sustain, { e with level := e.sustain, stage := .Sustain })
      else (l, { e with level := l })
  | .Sustain => (e.sustain, { e with level := e.sustain })
  | .Release =>
      let rate := e.calculate_rate e.release
      let l := e.level - rate * e.release_level
      if l ≤ 1/10000 then (0, { e with level := 0, stage := .Idle })
      else (l, { e with level := l })

/-- `Envelope::reset`. -/
def Envelope.resetEnv (e : Envelope) : Envelope :=
  { e with stage := .Idle, level := 0, release_level := 0 }

-- ===========================================================================
-- oscillator.rs
-- ===========================================================================

/-- `Waveform` from oscillator.rs. -/
inductive Waveform where
  | Sine
  | Saw
  | Square
  | Triangle
deriving DecidableEq, Repr

/-- `Oscillator` from oscillator.rs (PolyBLEP band-limited oscillator). -/
structure Oscillator where
  waveform : Waveform
  frequency : ℚ
  detune : ℚ
  phase : ℚ
  sample_rate : ℚ
  phase_increment : ℚ
deriving DecidableEq, Repr

/-- `Oscillator::update_phase_increment`: increment = freq·2^(detune/1200)/sample_rate. -/
def Oscillator.update_phase_increment (R : RMath) (o : Oscillator) : Oscillator :=
  let detuned_freq := o.frequency * R.pow2 (o.detune / 1200)
  { o with phase_increment := detuned_freq / o.sample_rate }

/-- `Oscillator::new`. -/
def Oscillator.new (R : RMath) (sample_rate : ℚ) : Oscillator :=
  Oscillator.update_phase_increment R
    { waveform := .Saw, frequency := 440, detune := 0, phase := 0,
      sample_rate := sample_rate, phase_increment := 0 }

/-- `Oscillator::set_frequency`. -/
def Oscillator.set_frequency (R : RMath) (o : Oscillator) (freq : ℚ) : Oscillator :=
  Oscillator.update_phase_increment R { o with frequency := freq }

/-- `Oscillator::set_detune`. -/
def Oscillator.set_detune (R : RMath) (o : Oscillator) (cents : ℚ) : Oscillator :=
  Oscillator.update_phase_increment R { o with detune := cents }

/-- `Oscillator::set_sample_rate`. -/
def Oscillator.set_sample_rate (R : RMath) (o : Oscillator) (sample_rate : ℚ) : Oscillator :=
  Oscillator.update_phase_increment R { o with sample_rate := sample_rate }

/-- `Oscillator::reset`. -/
def Oscillator.resetOsc (o : Oscillator) : Oscillator := { o with phase := 0 }

/-- `Oscillator::poly_blep_at`. -/
def Oscillator.poly_blep_at (o : Oscillator) (t : ℚ) : ℚ :=
  let dt := o.phase_increment
  if t < dt then
    let t1 := t / dt
    2 * t1 - t1 * t1 - 1
  else if t > 1 - dt then
    let t1 := (t - 1) / dt
    t1 * t1 + 2 * t1 + 1
  else 0

/-- `Oscillator::tick_with_pm` — returns (sample, updated oscillator).
The stored phase is advanced by the phase increment with a single
conditional wrap; the phase-modulation input only affects the local
`modulated_phase`, never the stored accumulator. -/
def Oscillator.tick_with_pm (R : RMath) (o : Oscillator) (phase_mod : ℚ) : ℚ × Oscillator :=
  let modulated_phase := fract1 (o.phase + phase_mod / (2 * R.pi))
  let sample :=
    match o.waveform with
    | .Sine => R.sin (modulated_phase * (2 * R.pi))
    | .Saw => 2 * modulated_phase - 1 - o.poly_blep_at modulated_phase
    | .Square =>
        (if modulated_phase < 1/2 then (1 : ℚ) else -1)
          + o.poly_blep_at modulated_phase
          - o.poly_blep_at (fract1 (modulated_phase + 1/2))
    | .Triangle =>
        if modulated_phase < 1/4 then 4 * modulated_phase
        else if modulated_phase < 3/4 then 2 - 4 * modulated_phase
        else 4 * modulated_phase - 4
  let p := o.phase + o.phase_increment
  let p := if p ≥ 1 then p - 1 else p
  (sample, { o with phase := p })

/-- `Oscillator::tick`. -/
def Oscillator.tickOsc (R : RMath) (o : Oscillator) : ℚ × Oscillator :=
  o.tick_with_pm R 0

-- ===========================================================================
-- lfo.rs
-- ===========================================================================

/-- `LfoWaveform` from lfo.rs. -/
inductive LfoWaveform where
  | Sine
  | Triangle
  | Saw
  | Square
  | SampleAndHold
deriving DecidableEq, Repr

/-- `Lfo` from lfo.rs; `random_state` is the `u32` xorshift state, modelled
as a natural number kept below `2^32`. -/
structure Lfo where
  waveform : LfoWaveform
  frequency : ℚ
  phase : ℚ
  sample_rate : ℚ
  phase_increment : ℚ
  sh_value : ℚ
  sh_trigger : Bool
  random_state : ℕ
deriving DecidableEq, Repr

/-- `Lfo::update_phase_increment`. -/
def Lfo.update_phase_increment (l : Lfo) : Lfo :=
  { l with phase_increment := l.frequency / l.sample_rate }

/-- `Lfo::new`. -/
def Lfo.new (sample_rate : ℚ) : Lfo :=
  Lfo.update_phase_increment
    { waveform := .Sine, frequency := 1, phase := 0, sample_rate := sample_rate,
      phase_increment := 0, sh_value := 0, sh_trigger := false, random_state := 12345 }

/-- `Lfo::set_frequency` (clamped to 0.01–100 Hz). -/
def Lfo.set_frequency (l : Lfo) (freq : ℚ) : Lfo :=
  Lfo.update_phase_increment { l with frequency := clampQ freq (1/100) 100 }

/-- `Lfo::set_sample_rate`. -/
def Lfo.set_sample_rate (l : Lfo) (sample_rate : ℚ) : Lfo :=
  Lfo.update_phase_increment { l with sample_rate := sample_rate }

/-- `Lfo::random` — xorshift32 step, output in [-1, 1]. -/
def Lfo.random (l : Lfo) : ℚ × Lfo :=
  let s := l.random_state
  let s := (s ^^^ (s <<< 13)) % 4294967296
  let s := s ^^^ (s >>> 17)
  let s := (s ^^^ (s <<< 5)) % 4294967296
  ((s : ℚ) / 4294967295 * 2 - 1, { l with random_state := s })

/-- `Lfo::tick` — returns (value, updated LFO). -/
def Lfo.tick (R : RMath) (l : Lfo) : ℚ × Lfo :=
  let step : ℚ × Lfo :=
    match l.waveform with
    | .Sine => (R.sin (l.phase * (2 * R.pi)), l)
    | .Triangle =>
        (if l.phase < 1/4 then 4 * l.phase
         else if l.phase < 3/4 then 2 - 4 * l.phase
         else 4 * l.phase - 4, l)
    | .Saw => (2 * l.phase - 1, l)
    | .Square => (if l.phase < 1/2 then 1 else -1, l)
    | .SampleAndHold =>
        if l.phase < l.phase_increment ∧ l.sh_trigger = false then
          let (r, l1) := l.random
          (r, { l1 with sh_value := r, sh_trigger := true })
        else if l.phase ≥ l.phase_increment then
          (l.sh_value, { l with sh_trigger := false })
        else
          (l.sh_value, l)
  let output := step.1
  let l1 := step.2
  let p := l1.phase + l1.phase_increment
  let p := if p ≥ 1 then p - 1 else p
  (output, { l1 with phase := p })

-- ===========================================================================
-- filter.rs (LadderFilter)
-- ===========================================================================

/-- `FilterType` from filter.rs. -/
inductive FilterType where
  | LowPass
  | HighPass
  | BandPass
deriving DecidableEq, Repr

/-- `FilterSlope` from filter.rs. -/
inductive FilterSlope where
  | Pole1
  | Pole2
  | Pole4
deriving DecidableEq, Repr

/-- `FilterSlope::poles`. -/
def FilterSlope.poles : FilterSlope → ℕ
  | .Pole1 => 1
  | .Pole2 => 2
  | .Pole4 => 4

/-- `LadderFilter` from filter.rs; the two 4-element `f32` arrays are
modelled by four numbered fields each. -/
structure LadderFilter where
  filter_type : FilterType
  slope : FilterSlope
  cutoff : ℚ
  resonance : ℚ
  drive : ℚ
  sample_rate : ℚ
  stage0 : ℚ
  stage1 : ℚ
  stage2 : ℚ
  stage3 : ℚ
  delay0 : ℚ
  delay1 : ℚ
  delay2 : ℚ
  delay3 : ℚ
deriving DecidableEq, Repr

/-- `LadderFilter::new`. -/
def LadderFilter.new (sample_rate : ℚ) : LadderFilter :=
  { filter_type := .LowPass, slope := .Pole4, cutoff := 10000, resonance := 0,
    drive := 1, sample_rate := sample_rate,
    stage0 := 0, stage1 := 0, stage2 := 0, stage3 := 0,
    delay0 := 0, delay1 := 0, delay2 := 0, delay3 := 0 }

/-- Array access `self.stage[i]` (the source only uses indices 0–3). -/
def LadderFilter.stageAt (f : LadderFilter) : ℕ → ℚ
  | 0 => f.stage0
  | 1 => f.stage1
  | 2 => f.stage2
  | 3 => f.stage3
  | _ => 0

/-- `LadderFilter::set_cutoff` (clamped to 20 Hz .. 0.45·sample_rate). -/
def LadderFilter.set_cutoff (f : LadderFilter) (cutoff : ℚ) : LadderFilter :=
  { f with cutoff := clampQ cutoff 20 (f.sample_rate * (9/20)) }

/-- `LadderFilter::set_resonance` (clamped to [0,1]). -/
def LadderFilter.set_resonance (f : LadderFilter) (resonance : ℚ) : LadderFilter :=
  { f with resonance := clampQ resonance 0 1 }

/-- `LadderFilter::reset`. -/
def LadderFilter.resetFilter (f : LadderFilter) : LadderFilter :=
  { f with stage0 := 0, stage1 := 0, stage2 := 0, stage3 := 0,
           delay0 := 0, delay1 := 0, delay2 := 0, delay3 := 0 }

/-- `LadderFilter::flush_denormal`: values of magnitude below `1e-15` are
flushed to exact zero. -/
def flush_denormal (x : ℚ) : ℚ :=
  if |x| < 1/1000000000000000 then 0 else x

/-- `LadderFilter::soft_clip` — cubic soft clipper, hard-limited outside ±1. -/
def LadderFilter.soft_clip (_f : LadderFilter) (x : ℚ) : ℚ :=
  if x > 1 then 1
  else if x < -1 then -1
  else x * (3/2 - 1/2 * x * x)

/-- The per-pole resonance scale from `LadderFilter::tick`
(`k = resonance · poleScale`). -/
def LadderFilter.resScale : FilterSlope → ℚ
  | .Pole1 => 3/2
  | .Pole2 => 2
  | .Pole4 => 3

/-- The driven input of `LadderFilter::tick`: input gained by `drive`, then
soft-clipped. -/
def LadderFilter.driven_input (f : LadderFilter) (input : ℚ) : ℚ :=
  f.soft_clip (input * f.drive)

/-- The resonance feedback term of `LadderFilter::tick`: the last active
stage gained by `k`, then soft-clipped. -/
def LadderFilter.feedback_term (f : LadderFilter) : ℚ :=
  let poles := f.slope.poles
  let k := f.resonance * LadderFilter.resScale f.slope
  let feedback_stage := min (poles - 1) 3
  f.soft_clip (k * f.stageAt feedback_stage)

/-- `LadderFilter::tick` — returns (output, updated filter). -/
def LadderFilter.tickFilter (R : RMath) (f : LadderFilter) (input : ℚ) : ℚ × LadderFilter :=
  let fc := clampQ (f.cutoff / f.sample_rate) 0 (9/20)
  let g := R.tan (R.pi * fc)
  let g1 := g / (1 + g)
  let poles := f.slope.poles
  let driven_input := f.driven_input input
  let feedback := f.feedback_term
  let x := driven_input - feedback
  let s0 := flush_denormal (g1 * (x - f.delay0) + f.delay0)
  let f1 := { f with delay0 := s0, stage0 := s0 }
  let f2 :=
    if poles ≥ 2 then
      let s1 := flush_denormal (g1 * (s0 - f1.delay1) + f1.delay1)
      { f1 with delay1 := s1, stage1 := s1 }
    else f1
  let f3 :=
    if poles ≥ 3 then
      let s2 := flush_denormal (g1 * (f2.stage1 - f2.delay2) + f2.delay2)
      { f2 with delay2 := s2, stage2 := s2 }
    else f2
  let f4 :=
    if poles ≥ 4 then
      let s3 := flush_denormal (g1 * (f3.stage2 - f3.delay3) + f3.delay3)
      { f3 with delay3 := s3, stage3 := s3 }
    else f3
  let lp_out := f4.stageAt (min (poles - 1) 3)
  let output :=
    match f.filter_type with
    | .LowPass => lp_out
    | .HighPass => driven_input - lp_out
    | .BandPass => if poles ≥ 2 then f4.stage0 - lp_out else lp_out
  (output, f4)

-- ===========================================================================
-- voice.rs
-- ===========================================================================

/-- `NoiseGen` from voice.rs — u32 linear congruential generator, state
modelled as a natural number kept below `2^32`. -/
structure NoiseGen where
  state : ℕ
deriving DecidableEq, Repr

/-- `NoiseGen::new`. -/
def NoiseGen.new : NoiseGen := ⟨12345⟩

/-- `NoiseGen::tick` — LCG step, output in [-1, 1). -/
def NoiseGen.tick (g : NoiseGen) : ℚ × NoiseGen :=
  let s := (g.state * 1103515245 + 12345) % 4294967296
  ((s : ℚ) / 2147483648 - 1, ⟨s⟩)

/-- `midi_to_freq` from voice.rs / fm.rs: `440·2^((note-69)/12)`. -/
def midi_to_freq (R : RMath) (note : ℕ) : ℚ :=
  440 * R.pow2 (((note : ℚ) - 69) / 12)

/-- `Voice` from voice.rs (one subtractive voice). -/
structure Voice where
  osc1 : Oscillator
  osc2 : Oscillator
  sub_osc : Oscillator
  noise : NoiseGen
  filter : LadderFilter
  amp_env : Envelope
  filter_env : Envelope
  note : ℕ
  velocity : ℚ
  active : Bool
  filter_env_amount : ℚ
  osc1_level : ℚ
  osc2_level : ℚ
  sub_level : ℚ
  noise_level : ℚ
  fm_amount : ℚ
  fm_ratio : ℚ
deriving DecidableEq, Repr

/-- `Voice::new`. -/
def Voice.new (R : RMath) (sample_rate : ℚ) : Voice :=
  { osc1 := Oscillator.new R sample_rate,
    osc2 := Oscillator.new R sample_rate,
    sub_osc := { Oscillator.new R sample_rate with waveform := .Square },
    noise := NoiseGen.new,
    filter := LadderFilter.new sample_rate,
    amp_env := Envelope.new sample_rate,
    filter_env := Envelope.new sample_rate,
    note := 0, velocity := 0, active := false,
    filter_env_amount := 1/2,
    osc1_level := 1, osc2_level := 0, sub_level := 0, noise_level := 0,
    fm_amount := 0, fm_ratio := 2 }

/-- `Voice::note_on_with_bend`: derives the three oscillator frequencies
from the MIDI note and bend multiplier, resets the phases, triggers both
envelopes.  Note that osc2 always gets `freq · fm_ratio`, whatever
`fm_amount` is — this is the point checked by claim C4. -/
def Voice.note_on_with_bend (R : RMath) (v : Voice) (note : ℕ)
    (velocity bend_multiplier : ℚ) : Voice :=
  let base_freq := midi_to_freq R note
  let freq := base_freq * bend_multiplier
  { v with
    note := note, velocity := velocity, active := true,
    osc1 := (v.osc1.set_frequency R freq).resetOsc,
    osc2 := (v.osc2.set_frequency R (freq * v.fm_ratio)).resetOsc,
    sub_osc := (v.sub_osc.set_frequency R (freq * (1/2))).resetOsc,
    amp_env := v.amp_env.trigger,
    filter_env := v.filter_env.trigger }

/-- `Voice::note_on` (bend multiplier 1). -/
def Voice.note_on (R : RMath) (v : Voice) (note : ℕ) (velocity : ℚ) : Voice :=
  v.note_on_with_bend R note velocity 1

/-- `Voice::note_off`. -/
def Voice.note_off (v : Voice) : Voice :=
  { v with amp_env := v.amp_env.doRelease, filter_env := v.filter_env.doRelease }

/-- The source-mixing step of `Voice::tick` (voice.rs lines 177–185): the
four level-scaled sources are summed, and the sum is divided by the level
sum only when that sum exceeds 1. -/
def Voice.mixSignal (v : Voice) (osc1_out osc2_out sub_out noise_out : ℚ) : ℚ :=
  let total_level := v.osc1_level + v.osc2_level + v.sub_level + v.noise_level
  if total_level > 1 then (osc1_out + osc2_out + sub_out + noise_out) / total_level
  else if total_level > 0 then osc1_out + osc2_out + sub_out + noise_out
  else 0

/-- `Voice::tick` — returns (sample, updated voice).  Inactive voices
return 0.0 immediately, mutating nothing. -/
def Voice.tick (R : RMath) (v : Voice) (base_cutoff : ℚ) : ℚ × Voice :=
  if v.active = false then (0, v)
  else
    let fmStep : ℚ × ℚ × Oscillator × Oscillator :=
      if v.fm_amount > 0 then
        let m := v.osc2.tickOsc R
        let mod_signal := m.1
        let phase_mod := mod_signal * v.fm_amount * 8 * R.pi
        let c := v.osc1.tick_with_pm R phase_mod
        (c.1 * v.osc1_level,
         mod_signal * v.osc2_level * (1 - v.fm_amount * (1/2)),
         c.2, m.2)
      else
        let c := v.osc1.tickOsc R
        let m := v.osc2.tickOsc R
        (c.1 * v.osc1_level, m.1 * v.osc2_level, c.2, m.2)
    let osc1_out := fmStep.1
    let osc2_out := fmStep.2.1
    let osc1' := fmStep.2.2.1
    let osc2' := fmStep.2.2.2
    let st := v.sub_osc.tickOsc R
    let sub_out := st.1 * v.sub_level
    let nt := v.noise.tick
    let noise_out := nt.1 * v.noise_level
    let osc_out := v.mixSignal osc1_out osc2_out sub_out noise_out
    let ft := v.filter_env.tick
    let filter_env_val := ft.1
    let cutoff := base_cutoff + (20000 - base_cutoff) * filter_env_val * v.filter_env_amount
    let filt := v.filter.set_cutoff cutoff
    let fo := filt.tickFilter R osc_out
    let at' := v.amp_env.tick
    let amp_env_val := at'.1
    let output := fo.1 * amp_env_val * v.velocity
    let active' := if at'.2.is_idle then false else v.active
    (output,
     { v with osc1 := osc1', osc2 := osc2', sub_osc := st.2, noise := nt.2,
              filter := fo.2, filter_env := ft.2, amp_env := at'.2,
              active := active' })

/-- `Voice::reset`. -/
def Voice.resetVoice (v : Voice) : Voice :=
  { v with osc1 := v.osc1.resetOsc, osc2 := v.osc2.resetOsc,
           sub_osc := v.sub_osc.resetOsc, filter := v.filter.resetFilter,
           amp_env := v.amp_env.resetEnv, filter_env := v.filter_env.resetEnv,
           active := false, note := 0, velocity := 0 }

-- ===========================================================================
-- voice.rs — VoiceManager
-- ===========================================================================

/-- `VoiceManager` from voice.rs: fixed pool of subtractive voices plus the
pitch-bend state. -/
structure VoiceManager where
  voices : List Voice
  sample_rate : ℚ
  pitch_bend : ℚ
  pitch_bend_range : ℚ
deriving Repr

/-- `VoiceManager::new`. -/
def VoiceManager.new (R : RMath) (num_voices : ℕ) (sample_rate : ℚ) : VoiceManager :=
  { voices := List.replicate num_voices (Voice.new R sample_rate),
    sample_rate := sample_rate, pitch_bend := 0, pitch_bend_range := 2 }

/-- `VoiceManager::pitch_bend_multiplier`: `2^(pitch_bend/12)`. -/
def VoiceManager.pitch_bend_multiplier (R : RMath) (m : VoiceManager) : ℚ :=
  R.pow2 (m.pitch_bend / 12)

/-- The retrigger scan of `VoiceManager::note_on`
(`voices.iter_mut().find(|v| v.active && v.note == note)`): plays `note`
into the first active voice already holding it, if any. -/
def retriggerSame (R : RMath) (bend : ℚ) (note : ℕ) (vel : ℚ) :
    List Voice → Option (List Voice)
  | [] => none
  | v :: vs =>
    if v.active = true ∧ v.note = note then
      some (v.note_on_with_bend R note vel bend :: vs)
    else
      (retriggerSame R bend note vel vs).map (v :: ·)

/-- The allocation scan of `VoiceManager::allocate_voice`
(`voices.iter().position(|v| !v.active)`): plays `note` into the first
inactive voice, if any. -/
def allocPlay (R : RMath) (bend : ℚ) (note : ℕ) (vel : ℚ) :
    List Voice → Option (List Voice)
  | [] => none
  | v :: vs =>
    if v.active = false then
      some (v.note_on_with_bend R note vel bend :: vs)
    else
      (allocPlay R bend note vel vs).map (v :: ·)

/-- The voice-list effect of `VoiceManager::note_on`: retrigger a matching
active voice, else the first inactive voice, else steal the first voice. -/
def noteOnVoices (R : RMath) (bend : ℚ) (note : ℕ) (vel : ℚ)
    (voices : List Voice) : List Voice :=
  match retriggerSame R bend note vel voices with
  | some l => l
  | none =>
    match allocPlay R bend note vel voices with
    | some l => l
    | none =>
      match voices with
      | [] => []
      | v :: vs => v.note_on_with_bend R note vel bend :: vs

/-- `VoiceManager::note_on`. -/
def VoiceManager.note_on (R : RMath) (m : VoiceManager) (note : ℕ) (velocity : ℚ) :
    VoiceManager :=
  let bend_mult := m.pitch_bend_multiplier R
  { m with voices := noteOnVoices R bend_mult note velocity m.voices }

/-- `VoiceManager::note_off` — releases every active voice holding `note`. -/
def VoiceManager.note_off (m : VoiceManager) (note : ℕ) : VoiceManager :=
  { m with voices := m.voices.map (fun v =>
      if v.active = true ∧ v.note = note then v.note_off else v) }

/-- `VoiceManager::all_notes_off` — releases every voice. -/
def VoiceManager.all_notes_off (m : VoiceManager) : VoiceManager :=
  { m with voices := m.voices.map Voice.note_off }

/-- `VoiceManager::active_voice_count`. -/
def VoiceManager.active_voice_count (m : VoiceManager) : ℕ :=
  m.voices.countP (fun v => v.active)

/-- `VoiceManager::set_filter_resonance` (broadcast to the pool). -/
def VoiceManager.set_filter_resonance (m : VoiceManager) (resonance : ℚ) : VoiceManager :=
  { m with voices := m.voices.map (fun v =>
      { v with filter := v.filter.set_resonance resonance }) }

-- ===========================================================================
-- synth.rs
-- ===========================================================================

/-- `SubWaveform` (referenced from synth.rs and voice.rs; its two variants
`Sine` and `Square` are the ones matched on in voice.rs). -/
inductive SubWaveform where
  | Sine
  | Square
deriving DecidableEq, Repr

/-- `SynthParams` from synth.rs — the flat preset parameter struct. -/
structure SynthParams where
  osc1_waveform : Waveform
  osc1_level : ℚ
  osc2_waveform : Waveform
  osc2_detune : ℚ
  osc2_level : ℚ
  pulse_width : ℚ
  pwm_depth : ℚ
  pwm_rate : ℚ
  sub_level : ℚ
  sub_waveform : SubWaveform
  sub_octave : ℤ
  noise_level : ℚ
  fm_amount : ℚ
  fm_ratio : ℚ
  hpf_cutoff : ℚ
  filter_type : FilterType
  filter_slope : FilterSlope
  filter_cutoff : ℚ
  filter_resonance : ℚ
  filter_env_amount : ℚ
  amp_attack : ℚ
  amp_decay : ℚ
  amp_sustain : ℚ
  amp_release : ℚ
  filter_attack : ℚ
  filter_decay : ℚ
  filter_sustain : ℚ
  filter_release : ℚ
  master_volume : ℚ

/-- `SynthParams::default()`. -/
def SynthParams.default : SynthParams :=
  { osc1_waveform := .Saw, osc1_level := 1,
    osc2_waveform := .Square, osc2_detune := 7, osc2_level := 0,
    pulse_width := 1/2, pwm_depth := 0, pwm_rate := 1,
    sub_level := 0, sub_waveform := .Square, sub_octave := -1,
    noise_level := 0, fm_amount := 0, fm_ratio := 2,
    hpf_cutoff := 20,
    filter_type := .LowPass, filter_slope := .Pole4,
    filter_cutoff := 5000, filter_resonance := 3/10, filter_env_amount := 1/2,
    amp_attack := 1/100, amp_decay := 1/10, amp_sustain := 7/10, amp_release := 3/10,
    filter_attack := 1/100, filter_decay := 1/5, filter_sustain := 3/10,
    filter_release := 3/10, master_volume := 7/10 }

/-- `Synth` from synth.rs. -/
structure Synth where
  voice_manager : VoiceManager
  params : SynthParams
  sample_rate : ℚ

/-- `Synth::control_change` — the fixed CC map of synth.rs lines 180–215;
any other controller number falls through to the empty arm. -/
def Synth.control_change (s : Synth) (cc value : ℕ) : Synth :=
  let normalized : ℚ := (value : ℚ) / 127
  if cc = 1 then
    { s with params := { s.params with filter_cutoff := 100 + normalized * 19900 } }
  else if cc = 74 then
    { s with params := { s.params with filter_cutoff := 100 + normalized * 19900 } }
  else if cc = 71 then
    { s with params := { s.params with filter_resonance := normalized },
             voice_manager := s.voice_manager.set_filter_resonance normalized }
  else if cc = 73 then
    { s with params := { s.params with amp_attack := normalized * 2 } }
  else if cc = 75 then
    { s with params := { s.params with amp_decay := normalized * 2 } }
  else if cc = 72 then
    { s with params := { s.params with amp_release := normalized * 3 } }
  else if cc = 123 then
    { s with voice_manager := s.voice_manager.all_notes_off }
  else s

-- ===========================================================================
-- fm.rs — FmOscillator / FmOperator
-- ===========================================================================

/-- `FmOscillator` from fm.rs — plain sine oscillator with a phase-mod input. -/
structure FmOscillator where
  phase : ℚ
  phase_increment : ℚ
  frequency : ℚ
  sample_rate : ℚ
deriving DecidableEq, Repr

/-- `FmOscillator::new`. -/
def FmOscillator.new (sample_rate : ℚ) : FmOscillator :=
  { phase := 0, phase_increment := 0, frequency := 440, sample_rate := sample_rate }

/-- `FmOscillator::set_frequency` (re-derives the phase increment). -/
def FmOscillator.set_frequency (o : FmOscillator) (frequency : ℚ) : FmOscillator :=
  { o with frequency := frequency, phase_increment := frequency / o.sample_rate }

/-- `FmOscillator::tick` — returns (sample, updated oscillator). -/
def FmOscillator.tick (R : RMath) (o : FmOscillator) (phase_mod : ℚ) : ℚ × FmOscillator :=
  let output := R.sin (o.phase * (2 * R.pi) + phase_mod)
  let p := o.phase + o.phase_increment
  let p := if p ≥ 1 then p - 1 else p
  (output, { o with phase := p })

/-- `FmOscillator::reset`. -/
def FmOscillator.resetOsc (o : FmOscillator) : FmOscillator := { o with phase := 0 }

/-- `FmOperator` from fm.rs — one oscillator + envelope with feedback state. -/
structure FmOperator where
  oscillator : FmOscillator
  envelope : Envelope
  ratio : ℚ
  detune : ℚ
  level : ℚ
  velocity_sens : ℚ
  feedback : ℚ
  velocity : ℚ
  feedback_sample : ℚ
deriving DecidableEq, Repr

/-- `FmOperator::new`. -/
def FmOperator.new (sample_rate : ℚ) : FmOperator :=
  { oscillator := FmOscillator.new sample_rate,
    envelope := Envelope.new sample_rate,
    ratio := 1, detune := 0, level := 1, velocity_sens := 1/2,
    feedback := 0, velocity := 1, feedback_sample := 0 }

/-- `FmOperator::set_note_frequency`: `note_freq · ratio · 2^(detune/1200)`. -/
def FmOperator.set_note_frequency (R : RMath) (op : FmOperator) (note_freq : ℚ) :
    FmOperator :=
  let detune_mult := R.pow2 (op.detune / 1200)
  { op with oscillator := op.oscillator.set_frequency (note_freq * op.ratio * detune_mult) }

/-- `FmOperator::trigger`. -/
def FmOperator.trigger (op : FmOperator) (velocity : ℚ) : FmOperator :=
  { op with velocity := velocity, oscillator := op.oscillator.resetOsc,
            envelope := op.envelope.trigger, feedback_sample := 0 }

/-- `FmOperator::release`. -/
def FmOperator.doRelease (op : FmOperator) : FmOperator :=
  { op with envelope := op.envelope.doRelease }

/-- `FmOperator::tick` — adds self-feedback to the incoming phase
modulation, generates the sine, stores it for next-sample feedback, scales
by envelope, level and velocity. -/
def FmOperator.tick (R : RMath) (op : FmOperator) (phase_mod_in : ℚ) : ℚ × FmOperator :=
  let total_phase_mod := phase_mod_in + op.feedback_sample * op.feedback * R.pi
  let ot := op.oscillator.tick R total_phase_mod
  let osc_out := ot.1
  let et := op.envelope.tick
  let env := et.1
  let vel_scale := 1 - op.velocity_sens + op.velocity_sens * op.velocity
  (osc_out * env * op.level * vel_scale,
   { op with oscillator := ot.2, envelope := et.2, feedback_sample := osc_out })

/-- `FmOperator::is_finished`. -/
def FmOperator.is_finished (op : FmOperator) : Bool := op.envelope.is_idle

-- ===========================================================================
-- fm.rs — 4-operator voice
-- ===========================================================================

/-- `FmAlgorithm` from fm.rs — the 8 four-operator topologies. -/
inductive FmAlgorithm where
  | Algo1Serial
  | Algo2Branch
  | Algo3TwoStacks
  | Algo4ThreeToOne
  | Algo5Mixed
  | Algo6OneToThree
  | Algo7Parallel
  | Algo8Additive
deriving DecidableEq, Repr

/-- `FmAlgorithm::carriers` — the operator indices declared audible. -/
def FmAlgorithm.carriers : FmAlgorithm → List ℕ
  | .Algo1Serial => [0]
  | .Algo2Branch => [0]
  | .Algo3TwoStacks => [0, 2]
  | .Algo4ThreeToOne => [0]
  | .Algo5Mixed => [0, 1, 2]
  | .Algo6OneToThree => [0, 1, 2]
  | .Algo7Parallel => [0, 1, 2]
  | .Algo8Additive => [0, 1, 2, 3]

/-- `Fm4OpVoice` from fm.rs; `operators[i]` is modelled by field `opN`. -/
structure Fm4OpVoice where
  op0 : FmOperator
  op1 : FmOperator
  op2 : FmOperator
  op3 : FmOperator
  algorithm : FmAlgorithm
  filter : LadderFilter
  filter_cutoff : ℚ
  filter_resonance : ℚ
  filter_enabled : Bool
  note : ℕ
  velocity : ℚ
  active : Bool
  sample_rate : ℚ
deriving DecidableEq, Repr

/-- `operators[i]` of a 4-op voice (carrier lists only hold indices < 4). -/
def Fm4OpVoice.opAt (v : Fm4OpVoice) : ℕ → FmOperator
  | 0 => v.op0
  | 1 => v.op1
  | 2 => v.op2
  | 3 => v.op3
  | _ => v.op0

/-- `Fm4OpVoice::new` (operator defaults from fm.rs lines 283–321). -/
def Fm4OpVoice.new (sample_rate : ℚ) : Fm4OpVoice :=
  let base := FmOperator.new sample_rate
  let adsr := fun (a d s r : ℚ) (op : FmOperator) =>
    { op with
      envelope := { op.envelope with
                    attack := a, decay := d, sustain := s, release := r } }
  { op0 := adsr (1/1000) (3/10) (7/10) (3/10) { base with ratio := 1, level := 1 },
    op1 := adsr (1/1000) (1/5) (1/2) (1/5) { base with ratio := 1, level := 1/2 },
    op2 := adsr (1/1000) (3/20) (3/10) (3/20) { base with ratio := 2, level := 1/2 },
    op3 := adsr (1/1000) (1/10) (1/5) (1/10)
      { base with ratio := 2, level := 3/10, feedback := 0 },
    algorithm := .Algo1Serial,
    filter := LadderFilter.new sample_rate,
    filter_cutoff := 20000, filter_resonance := 0, filter_enabled := false,
    note := 0, velocity := 0, active := false, sample_rate := sample_rate }

/-- `Fm4OpVoice::note_on`. -/
def Fm4OpVoice.note_on (R : RMath) (v : Fm4OpVoice) (note : ℕ) (velocity : ℚ) :
    Fm4OpVoice :=
  let note_freq := midi_to_freq R note
  let play := fun (op : FmOperator) => (op.set_note_frequency R note_freq).trigger velocity
  { v with note := note, velocity := velocity, active := true,
           op0 := play v.op0, op1 := play v.op1, op2 := play v.op2, op3 := play v.op3 }

/-- `Fm4OpVoice::note_off`. -/
def Fm4OpVoice.note_off (v : Fm4OpVoice) : Fm4OpVoice :=
  { v with op0 := v.op0.doRelease, op1 := v.op1.doRelease,
           op2 := v.op2.doRelease, op3 := v.op3.doRelease }

/-- `Fm4OpVoice::is_finished` — all carrier operators idle. -/
def Fm4OpVoice.is_finished (v : Fm4OpVoice) : Bool :=
  v.algorithm.carriers.all (fun i => (v.opAt i).is_finished)

/-- The algorithm dispatch of `Fm4OpVoice::tick` (fm.rs lines 381–444).
Besides the mixed pre-filter output and the updated voice, the per-pass
output of each operator is recorded (index ↦ sample) so that theorems can
compare the mix against the `carriers()` set. -/
def Fm4OpVoice.processAlgorithm (R : RMath) (v : Fm4OpVoice) :
    (ℕ → ℚ) × ℚ × Fm4OpVoice :=
  match v.algorithm with
  | .Algo1Serial =>
      let t3 := v.op3.tick R 0
      let t2 := v.op2.tick R (t3.1 * R.pi)
      let t1 := v.op1.tick R (t2.1 * R.pi)
      let t0 := v.op0.tick R (t1.1 * R.pi)
      (fun i => match i with | 0 => t0.1 | 1 => t1.1 | 2 => t2.1 | 3 => t3.1 | _ => 0,
       t0.1,
       { v with op0 := t0.2, op1 := t1.2, op2 := t2.2, op3 := t3.2 })
  | .Algo2Branch =>
      let t3 := v.op3.tick R 0
      let t2 := v.op2.tick R 0
      let t1 := v.op1.tick R ((t3.1 + t2.1) * R.pi)
      let t0 := v.op0.tick R (t1.1 * R.pi)
      (fun i => match i with | 0 => t0.1 | 1 => t1.1 | 2 => t2.1 | 3 => t3.1 | _ => 0,
       t0.1,
       { v with op0 := t0.2, op1 := t1.2, op2 := t2.2, op3 := t3.2 })
  | .Algo3TwoStacks =>
      let t3 := v.op3.tick R 0
      let t2 := v.op2.tick R (t3.1 * R.pi)
      let t1 := v.op1.tick R 0
      let t0 := v.op0.tick R (t1.1 * R.pi)
      (fun i => match i with | 0 => t0.1 | 1 => t1.1 | 2 => t2.1 | 3 => t3.1 | _ => 0,
       (t0.1 + t2.1) * (1/2),
       { v with op0 := t0.2, op1 := t1.2, op2 := t2.2, op3 := t3.2 })
  | .Algo4ThreeToOne =>
      let t3 := v.op3.tick R 0
      let t2 := v.op2.tick R 0
      let t1 := v.op1.tick R 0
      let t0 := v.op0.tick R ((t3.1 + t2.1 + t1.1) * R.pi * (1/2))
      (fun i => match i with | 0 => t0.1 | 1 => t1.1 | 2 => t2.1 | 3 => t3.1 | _ => 0,
       t0.1,
       { v with op0 := t0.2, op1 := t1.2, op2 := t2.2, op3 := t3.2 })
  | .Algo5Mixed =>
      let t3 := v.op3.tick R 0
      let t2 := v.op2.tick R (t3.1 * R.pi)
      let t1 := v.op1.tick R 0
      let t0 := v.op0.tick R 0
      (fun i => match i with | 0 => t0.1 | 1 => t1.1 | 2 => t2.1 | 3 => t3.1 | _ => 0,
       (t0.1 + t1.1 + t2.1) / 3,
       { v with op0 := t0.2, op1 := t1.2, op2 := t2.2, op3 := t3.2 })
  | .Algo6OneToThree =>
      let t3 := v.op3.tick R 0
      let mod_amount := t3.1 * R.pi
      let t2 := v.op2.tick R mod_amount
      let t1 := v.op1.tick R mod_amount
      let t0 := v.op0.tick R mod_amount
      (fun i => match i with | 0 => t0.1 | 1 => t1.1 | 2 => t2.1 | 3 => t3.1 | _ => 0,
       (t0.1 + t1.1 + t2.1) / 3,
       { v with op0 := t0.2, op1 := t1.2, op2 := t2.2, op3 := t3.2 })
  | .Algo7Parallel =>
      let t3 := v.op3.tick R 0
      let t2 := v.op2.tick R (t3.1 * R.pi)
      let t1 := v.op1.tick R 0
      let t0 := v.op0.tick R 0
      (fun i => match i with | 0 => t0.1 | 1 => t1.1 | 2 => t2.1 | 3 => t3.1 | _ => 0,
       (t0.1 + t1.1 + t2.1) / 3,
       { v with op0 := t0.2, op1 := t1.2, op2 := t2.2, op3 := t3.2 })
  | .Algo8Additive =>
      let t3 := v.op3.tick R 0
      let t2 := v.op2.tick R 0
      let t1 := v.op1.tick R 0
      let t0 := v.op0.tick R 0
      (fun i => match i with | 0 => t0.1 | 1 => t1.1 | 2 => t2.1 | 3 => t3.1 | _ => 0,
       (t0.1 + t1.1 + t2.1 + t3.1) * (1/4),
       { v with op0 := t0.2, op1 := t1.2, op2 := t2.2, op3 := t3.2 })

/-- `Fm4OpVoice::tick` — returns (sample, updated voice); inactive voices
return 0.0 untouched. -/
def Fm4OpVoice.tick (R : RMath) (v : Fm4OpVoice) : ℚ × Fm4OpVoice :=
  if v.active = false then (0, v)
  else
    let pa := v.processAlgorithm R
    let output := pa.2.1
    let v1 := pa.2.2
    let fstep : ℚ × Fm4OpVoice :=
      if v1.filter_enabled = true then
        let filt := (v1.filter.set_cutoff v1.filter_cutoff).set_resonance v1.filter_resonance
        let ftick := filt.tickFilter R output
        (ftick.1, { v1 with filter := ftick.2 })
      else (output, v1)
    let v2 := fstep.2
    let v3 := if v2.is_finished then { v2 with active := false } else v2
    (fstep.1, v3)

/-- `Fm4OpVoice::is_active`. -/
def Fm4OpVoice.is_active (v : Fm4OpVoice) : Bool := v.active

-- ===========================================================================
-- fm.rs — Fm4OpVoiceManager
-- ===========================================================================

/-- `Fm4OpVoiceManager` from fm.rs. -/
structure Fm4OpVoiceManager where
  voices : List Fm4OpVoice
  sample_rate : ℚ
  vibrato_lfo : Lfo
  vibrato_depth : ℚ
  master_volume : ℚ
deriving Repr

/-- `Fm4OpVoiceManager::new` (vibrato LFO at the default 5 Hz). -/
def Fm4OpVoiceManager.new (num_voices : ℕ) (sample_rate : ℚ) : Fm4OpVoiceManager :=
  { voices := List.replicate num_voices (Fm4OpVoice.new sample_rate),
    sample_rate := sample_rate,
    vibrato_lfo := (Lfo.new sample_rate).set_frequency 5,
    vibrato_depth := 0, master_volume := 7/10 }

/-- The per-voice vibrato application of `Fm4OpVoiceManager::tick`: every
operator's stored oscillator frequency is overwritten with
`base_freq · vibrato` (nothing in the tick restores it afterwards). -/
def Fm4OpVoice.applyVibrato (vibrato : ℚ) (v : Fm4OpVoice) : Fm4OpVoice :=
  let vib := fun (op : FmOperator) =>
    { op with oscillator := op.oscillator.set_frequency (op.oscillator.frequency * vibrato) }
  { v with op0 := vib v.op0, op1 := vib v.op1, op2 := vib v.op2, op3 := vib v.op3 }

/-- The voice loop of `Fm4OpVoiceManager::tick`: apply vibrato to each
active voice (when the multiplier is ≠ 1), tick it, and accumulate the sum. -/
def fm4TickVoices (R : RMath) (vibrato : ℚ) : List Fm4OpVoice → ℚ × List Fm4OpVoice
  | [] => (0, [])
  | v :: vs =>
    let v1 := if vibrato ≠ 1 ∧ v.is_active = true then v.applyVibrato vibrato else v
    let t := v1.tick R
    let rest := fm4TickVoices R vibrato vs
    (t.1 + rest.1, t.2 :: rest.2)

/-- `Fm4OpVoiceManager::tick` — derives the vibrato multiplier
`2^((lfo·depth)/1200)` when depth > 0, runs every voice, scales by the
master volume. -/
def Fm4OpVoiceManager.tick (R : RMath) (m : Fm4OpVoiceManager) : ℚ × Fm4OpVoiceManager :=
  let vibStep : ℚ × Lfo :=
    if m.vibrato_depth > 0 then
      let lt := m.vibrato_lfo.tick R
      let cents := lt.1 * m.vibrato_depth
      (R.pow2 (cents / 1200), lt.2)
    else (1, m.vibrato_lfo)
  let loop := fm4TickVoices R vibStep.1 m.voices
  (loop.1 * m.master_volume,
   { m with voices := loop.2, vibrato_lfo := vibStep.2 })

/-- `Fm4OpVoiceManager::active_voice_count`. -/
def Fm4OpVoiceManager.active_voice_count (m : Fm4OpVoiceManager) : ℕ :=
  m.voices.countP (fun v => v.is_active)

-- ===========================================================================
-- fm.rs — 6-operator (DX7-style) voice
-- ===========================================================================

/-- `Dx7Algorithm` from fm.rs — the 32 six-operator topologies. -/
inductive Dx7Algorithm where
  | Algo1
  | Algo2
  | Algo3
  | Algo4
  | Algo5
  | Algo6
  | Algo7
  | Algo8
  | Algo9
  | Algo10
  | Algo11
  | Algo12
  | Algo13
  | Algo14
  | Algo15
  | Algo16
  | Algo17
  | Algo18
  | Algo19
  | Algo20
  | Algo21
  | Algo22
  | Algo23
  | Algo24
  | Algo25
  | Algo26
  | Algo27
  | Algo28
  | Algo29
  | Algo30
  | Algo31
  | Algo32
deriving DecidableEq, Repr

/-- `Dx7Algorithm::carriers` — the operator indices declared audible
(0 = OP1 … 5 = OP6). -/
def Dx7Algorithm.carriers : Dx7Algorithm → List ℕ
  | .Algo1 => [0]
  | .Algo2 => [0]
  | .Algo3 => [0]
  | .Algo4 => [0]
  | .Algo5 => [0]
  | .Algo6 => [0]
  | .Algo7 => [0]
  | .Algo8 => [0]
  | .Algo9 => [0]
  | .Algo10 => [0, 2]
  | .Algo11 => [0, 2]
  | .Algo12 => [0, 2]
  | .Algo13 => [0, 2]
  | .Algo14 => [0, 2]
  | .Algo15 => [0, 2]
  | .Algo16 => [0, 2]
  | .Algo17 => [0, 2]
  | .Algo18 => [0, 2]
  | .Algo19 => [0, 1, 2]
  | .Algo20 => [0, 1, 2]
  | .Algo21 => [0, 1, 2]
  | .Algo22 => [0, 1, 2]
  | .Algo23 => [0, 1, 2]
  | .Algo24 => [0, 1, 2]
  | .Algo25 => [0, 1, 2]
  | .Algo26 => [0, 1, 2]
  | .Algo27 => [0, 1, 2, 3]
  | .Algo28 => [0, 1, 2, 3]
  | .Algo29 => [0, 1, 2, 3]
  | .Algo30 => [0, 1, 2, 3]
  | .Algo31 => [0, 1, 2, 3, 4]
  | .Algo32 => [0, 1, 2, 3, 4, 5]

/-- `Fm6OpVoice` from fm.rs; `operators[i]` is modelled by field `opN`. -/
structure Fm6OpVoice where
  op0 : FmOperator
  op1 : FmOperator
  op2 : FmOperator
  op3 : FmOperator
  op4 : FmOperator
  op5 : FmOperator
  algorithm : Dx7Algorithm
  filter : LadderFilter
  filter_cutoff : ℚ
  filter_resonance : ℚ
  filter_enabled : Bool
  note : ℕ
  velocity : ℚ
  active : Bool
  sample_rate : ℚ
deriving DecidableEq, Repr

/-- `operators[i]` of a 6-op voice (carrier lists only hold indices < 6). -/
def Fm6OpVoice.opAt (v : Fm6OpVoice) : ℕ → FmOperator
  | 0 => v.op0
  | 1 => v.op1
  | 2 => v.op2
  | 3 => v.op3
  | 4 => v.op4
  | 5 => v.op5
  | _ => v.op0

/-- `Fm6OpVoice::new` (operator defaults from fm.rs lines 861–890). -/
def Fm6OpVoice.new (sample_rate : ℚ) : Fm6OpVoice :=
  let base := FmOperator.new sample_rate
  let adsr := fun (a d s r : ℚ) (op : FmOperator) =>
    { op with
      envelope := { op.envelope with
                    attack := a, decay := d, sustain := s, release := r } }
  let mid := fun (i : ℚ) =>
    adsr (1/1000) (1/5) (2/5) (1/5) { base with ratio := 1 + i * (1/2), level := 1/2 }
  { op0 := adsr (1/1000) (3/10) (7/10) (3/10) { base with ratio := 1, level := 1 },
    op1 := mid 1, op2 := mid 2, op3 := mid 3, op4 := mid 4,
    op5 := adsr (1/1000) (3/20) (3/10) (3/20)
      { base with ratio := 1, level := 1/2, feedback := 0 },
    algorithm := .Algo1,
    filter := LadderFilter.new sample_rate,
    filter_cutoff := 20000, filter_resonance := 0, filter_enabled := false,
    note := 0, velocity := 0, active := false, sample_rate := sample_rate }

/-- `Fm6OpVoice::note_on`. -/
def Fm6OpVoice.note_on (R : RMath) (v : Fm6OpVoice) (note : ℕ) (velocity : ℚ) :
    Fm6OpVoice :=
  let note_freq := midi_to_freq R note
  let play := fun (op : FmOperator) => (op.set_note_frequency R note_freq).trigger velocity
  { v with note := note, velocity := velocity, active := true,
           op0 := play v.op0, op1 := play v.op1, op2 := play v.op2,
           op3 := play v.op3, op4 := play v.op4, op5 := play v.op5 }

/-- `Fm6OpVoice::note_off`. -/
def Fm6OpVoice.note_off (v : Fm6OpVoice) : Fm6OpVoice :=
  { v with op0 := v.op0.doRelease, op1 := v.op1.doRelease, op2 := v.op2.doRelease,
           op3 := v.op3.doRelease, op4 := v.op4.doRelease, op5 := v.op5.doRelease }

/-- `Fm6OpVoice::is_finished` — all carrier operators idle. -/
def Fm6OpVoice.is_finished (v : Fm6OpVoice) : Bool :=
  v.algorithm.carriers.all (fun i => (v.opAt i).is_finished)

/-- `Fm6OpVoice::process_algorithm` (fm.rs lines 966–1286).  Operators are
ticked from OP6 (`op5`, `t5`) down to OP1 (`op0`, `t0`) with the phase
modulation wiring of the selected algorithm; the mixed pre-filter output
is returned together with a record of each operator's per-pass output
(index ↦ sample) and the updated voice. -/
def Fm6OpVoice.processAlgorithm (R : RMath) (v : Fm6OpVoice) :
    (ℕ → ℚ) × ℚ × Fm6OpVoice :=
  match v.algorithm with
  | .Algo1 =>
      let t5 := v.op5.tick R (0)
      let t4 := v.op4.tick R (t5.1 * R.pi)
      let t3 := v.op3.tick R (t4.1 * R.pi)
      let t2 := v.op2.tick R (t3.1 * R.pi)
      let t1 := v.op1.tick R (t2.1 * R.pi)
      let t0 := v.op0.tick R (t1.1 * R.pi)
      (fun i => match i with
        | 0 => t0.1 | 1 => t1.1 | 2 => t2.1 | 3 => t3.1 | 4 => t4.1 | 5 => t5.1
        | _ => 0,
       t0.1,
       { v with op0 := t0.2, op1 := t1.2, op2 := t2.2, op3 := t3.2,
                op4 := t4.2, op5 := t5.2 })
  | .Algo2 =>
      let t5 := v.op5.tick R (0)
      let t4 := v.op4.tick R (t5.1 * R.pi)
      let t3 := v.op3.tick R (t4.1 * R.pi)
      let t2 := v.op2.tick R (t3.1 * R.pi)
      let t1 := v.op1.tick R (t2.1 * R.pi)
      let t0 := v.op0.tick R (0)
      (fun i => match i with
        | 0 => t0.1 | 1 => t1.1 | 2 => t2.1 | 3 => t3.1 | 4 => t4.1 | 5 => t5.1
        | _ => 0,
       (t1.1 + t0.1) * (1/2),
       { v with op0 := t0.2, op1 := t1.2, op2 := t2.2, op3 := t3.2,
                op4 := t4.2, op5 := t5.2 })
  | .Algo3 =>
      let t5 := v.op5.tick R (0)
      let t4 := v.op4.tick R (t5.1 * R.pi)
      let t3 := v.op3.tick R (t4.1 * R.pi)
      let t2 := v.op2.tick R (t3.1 * R.pi)
      let t1 := v.op1.tick R (0)
      let t0 := v.op0.tick R (t1.1 * R.pi)
      (fun i => match i with
        | 0 => t0.1 | 1 => t1.1 | 2 => t2.1 | 3 => t3.1 | 4 => t4.1 | 5 => t5.1
        | _ => 0,
       (t2.1 + t0.1) * (1/2),
       { v with op0 := t0.2, op1 := t1.2, op2 := t2.2, op3 := t3.2,
                op4 := t4.2, op5 := t5.2 })
  | .Algo4 =>
      let t5 := v.op5.tick R (0)
      let t4 := v.op4.tick R (t5.1 * R.pi)
      let t3 := v.op3.tick R (t4.1 * R.pi)
      let t2 := v.op2.tick R (0)
      let t1 := v.op1.tick R (t2.1 * R.pi)
      let t0 := v.op0.tick R (t1.1 * R.pi)
      (fun i => match i with
        | 0 => t0.1 | 1 => t1.1 | 2 => t2.1 | 3 => t3.1 | 4 => t4.1 | 5 => t5.1
        | _ => 0,
       (t3.1 + t0.1) * (1/2),
       { v with op0 := t0.2, op1 := t1.2, op2 := t2.2, op3 := t3.2,
                op4 := t4.2, op5 := t5.2 })
  | .Algo5 =>
      let t5 := v.op5.tick R (0)
      let t4 := v.op4.tick R (t5.1 * R.pi)
      let t3 := v.op3.tick R (0)
      let t2 := v.op2.tick R (t3.1 * R.pi)
      let t1 := v.op1.tick R (t2.1 * R.pi)
      let t0 := v.op0.tick R (t1.1 * R.pi)
      (fun i => match i with
        | 0 => t0.1 | 1 => t1.1 | 2 => t2.1 | 3 => t3.1 | 4 => t4.1 | 5 => t5.1
        | _ => 0,
       (t4.1 + t0.1) * (1/2),
       { v with op0 := t0.2, op1 := t1.2, op2 := t2.2, op3 := t3.2,
                op4 := t4.2, op5 := t5.2 })
  | .Algo6 =>
      let t5 := v.op5.tick R (0)
      let t4 := v.op4.tick R (t5.1 * R.pi)
      let t3 := v.op3.tick R (t5.1 * R.pi)
      let t2 := v.op2.tick R ((t4.1 + t3.1) * R.pi * (1/2))
      let t1 := v.op1.tick R (t2.1 * R.pi)
      let t0 := v.op0.tick R (t1.1 * R.pi)
      (fun i => match i with
        | 0 => t0.1 | 1 => t1.1 | 2 => t2.1 | 3 => t3.1 | 4 => t4.1 | 5 => t5.1
        | _ => 0,
       t0.1,
       { v with op0 := t0.2, op1 := t1.2, op2 := t2.2, op3 := t3.2,
                op4 := t4.2, op5 := t5.2 })
  | .Algo7 =>
      let t5 := v.op5.tick R (0)
      let t4 := v.op4.tick R (t5.1 * R.pi)
      let t3 := v.op3.tick R (t4.1 * R.pi)
      let t2 := v.op2.tick R (0)
      let t1 := v.op1.tick R ((t3.1 + t2.1) * R.pi * (1/2))
      let t0 := v.op0.tick R (t1.1 * R.pi)
      (fun i => match i with
        | 0 => t0.1 | 1 => t1.1 | 2 => t2.1 | 3 => t3.1 | 4 => t4.1 | 5 => t5.1
        | _ => 0,
       t0.1,
       { v with op0 := t0.2, op1 := t1.2, op2 := t2.2, op3 := t3.2,
                op4 := t4.2, op5 := t5.2 })
  | .Algo8 =>
      let t5 := v.op5.tick R (0)
      let t4 := v.op4.tick R (t5.1 * R.pi)
      let t3 := v.op3.tick R (t4.1 * R.pi)
      let t2 := v.op2.tick R (t3.1 * R.pi)
      let t1 := v.op1.tick R (0)
      let t0 := v.op0.tick R ((t2.1 + t1.1) * R.pi * (1/2))
      (fun i => match i with
        | 0 => t0.1 | 1 => t1.1 | 2 => t2.1 | 3 => t3.1 | 4 => t4.1 | 5 => t5.1
        | _ => 0,
       t0.1,
       { v with op0 := t0.2, op1 := t1.2, op2 := t2.2, op3 := t3.2,
                op4 := t4.2, op5 := t5.2 })
  | .Algo9 =>
      let t5 := v.op5.tick R (0)
      let t4 := v.op4.tick R (t5.1 * R.pi)
      let t3 := v.op3.tick R (0)
      let t2 := v.op2.tick R (0)
      let t1 := v.op1.tick R ((t4.1 + t3.1 + t2.1) * R.pi / 3)
      let t0 := v.op0.tick R (t1.1 * R.pi)
      (fun i => match i with
        | 0 => t0.1 | 1 => t1.1 | 2 => t2.1 | 3 => t3.1 | 4 => t4.1 | 5 => t5.1
        | _ => 0,
       t0.1,
       { v with op0 := t0.2, op1 := t1.2, op2 := t2.2, op3 := t3.2,
                op4 := t4.2, op5 := t5.2 })
  | .Algo10 =>
      let t5 := v.op5.tick R (0)
      let t4 := v.op4.tick R (t5.1 * R.pi)
      let t3 := v.op3.tick R (t4.1 * R.pi)
      let t2 := v.op2.tick R (0)
      let t1 := v.op1.tick R (t2.1 * R.pi)
      let t0 := v.op0.tick R (t1.1 * R.pi)
      (fun i => match i with
        | 0 => t0.1 | 1 => t1.1 | 2 => t2.1 | 3 => t3.1 | 4 => t4.1 | 5 => t5.1
        | _ => 0,
       (t3.1 + t0.1) * (1/2),
       { v with op0 := t0.2, op1 := t1.2, op2 := t2.2, op3 := t3.2,
                op4 := t4.2, op5 := t5.2 })
  | .Algo11 =>
      let t5 := v.op5.tick R (0)
      let t4 := v.op4.tick R (t5.1 * R.pi)
      let t3 := v.op3.tick R (t4.1 * R.pi)
      let t2 := v.op2.tick R (t3.1 * R.pi)
      let t1 := v.op1.tick R (0)
      let t0 := v.op0.tick R (t1.1 * R.pi)
      (fun i => match i with
        | 0 => t0.1 | 1 => t1.1 | 2 => t2.1 | 3 => t3.1 | 4 => t4.1 | 5 => t5.1
        | _ => 0,
       (t2.1 + t0.1) * (1/2),
       { v with op0 := t0.2, op1 := t1.2, op2 := t2.2, op3 := t3.2,
                op4 := t4.2, op5 := t5.2 })
  | .Algo12 =>
      let t5 := v.op5.tick R (0)
      let t4 := v.op4.tick R (0)
      let t3 := v.op3.tick R ((t5.1 + t4.1) * R.pi * (1/2))
      let t2 := v.op2.tick R (t3.1 * R.pi)
      let t1 := v.op1.tick R (0)
      let t0 := v.op0.tick R (t1.1 * R.pi)
      (fun i => match i with
        | 0 => t0.1 | 1 => t1.1 | 2 => t2.1 | 3 => t3.1 | 4 => t4.1 | 5 => t5.1
        | _ => 0,
       (t2.1 + t0.1) * (1/2),
       { v with op0 := t0.2, op1 := t1.2, op2 := t2.2, op3 := t3.2,
                op4 := t4.2, op5 := t5.2 })
  | .Algo13 =>
      let t5 := v.op5.tick R (0)
      let t4 := v.op4.tick R (t5.1 * R.pi)
      let t3 := v.op3.tick R (t4.1 * R.pi)
      let t2 := v.op2.tick R (0)
      let t1 := v.op1.tick R (0)
      let t0 := v.op0.tick R ((t3.1 + t2.1 + t1.1) * R.pi / 3)
      (fun i => match i with
        | 0 => t0.1 | 1 => t1.1 | 2 => t2.1 | 3 => t3.1 | 4 => t4.1 | 5 => t5.1
        | _ => 0,
       t0.1,
       { v with op0 := t0.2, op1 := t1.2, op2 := t2.2, op3 := t3.2,
                op4 := t4.2, op5 := t5.2 })
  | .Algo14 =>
      let t5 := v.op5.tick R (0)
      let t4 := v.op4.tick R (t5.1 * R.pi)
      let t3 := v.op3.tick R (t5.1 * R.pi)
      let t2 := v.op2.tick R ((t4.1 + t3.1) * R.pi * (1/2))
      let t1 := v.op1.tick R (0)
      let t0 := v.op0.tick R (t1.1 * R.pi)
      (fun i => match i with
        | 0 => t0.1 | 1 => t1.1 | 2 => t2.1 | 3 => t3.1 | 4 => t4.1 | 5 => t5.1
        | _ => 0,
       (t2.1 + t0.1) * (1/2),
       { v with op0 := t0.2, op1 := t1.2, op2 := t2.2, op3 := t3.2,
                op4 := t4.2, op5 := t5.2 })
  | .Algo15 =>
      let t5 := v.op5.tick R (0)
      let t4 := v.op4.tick R (t5.1 * R.pi)
      let t3 := v.op3.tick R (0)
      let t2 := v.op2.tick R (t3.1 * R.pi)
      let t1 := v.op1.tick R (0)
      let t0 := v.op0.tick R (t1.1 * R.pi)
      (fun i => match i with
        | 0 => t0.1 | 1 => t1.1 | 2 => t2.1 | 3 => t3.1 | 4 => t4.1 | 5 => t5.1
        | _ => 0,
       (t4.1 + t2.1 + t0.1) / 3,
       { v with op0 := t0.2, op1 := t1.2, op2 := t2.2, op3 := t3.2,
                op4 := t4.2, op5 := t5.2 })
  | .Algo16 =>
      let t5 := v.op5.tick R (0)
      let t4 := v.op4.tick R (t5.1 * R.pi)
      let t3 := v.op3.tick R (t4.1 * R.pi)
      let t2 := v.op2.tick R (0)
      let t1 := v.op1.tick R (0)
      let t0 := v.op0.tick R (t1.1 * R.pi)
      (fun i => match i with
        | 0 => t0.1 | 1 => t1.1 | 2 => t2.1 | 3 => t3.1 | 4 => t4.1 | 5 => t5.1
        | _ => 0,
       (t3.1 + t2.1 + t0.1) / 3,
       { v with op0 := t0.2, op1 := t1.2, op2 := t2.2, op3 := t3.2,
                op4 := t4.2, op5 := t5.2 })
  | .Algo17 =>
      let t5 := v.op5.tick R (0)
      let t4 := v.op4.tick R (t5.1 * R.pi)
      let t3 := v.op3.tick R (0)
      let t2 := v.op2.tick R (t3.1 * R.pi)
      let t1 := v.op1.tick R (0)
      let t0 := v.op0.tick R (0)
      (fun i => match i with
        | 0 => t0.1 | 1 => t1.1 | 2 => t2.1 | 3 => t3.1 | 4 => t4.1 | 5 => t5.1
        | _ => 0,
       (t4.1 + t2.1 + t1.1 + t0.1) * (1/4),
       { v with op0 := t0.2, op1 := t1.2, op2 := t2.2, op3 := t3.2,
                op4 := t4.2, op5 := t5.2 })
  | .Algo18 =>
      let t5 := v.op5.tick R (0)
      let t4 := v.op4.tick R (t5.1 * R.pi)
      let t3 := v.op3.tick R (t4.1 * R.pi)
      let t2 := v.op2.tick R (t3.1 * R.pi)
      let t1 := v.op1.tick R (0)
      let t0 := v.op0.tick R (0)
      (fun i => match i with
        | 0 => t0.1 | 1 => t1.1 | 2 => t2.1 | 3 => t3.1 | 4 => t4.1 | 5 => t5.1
        | _ => 0,
       (t2.1 + t1.1 + t0.1) / 3,
       { v with op0 := t0.2, op1 := t1.2, op2 := t2.2, op3 := t3.2,
                op4 := t4.2, op5 := t5.2 })
  | .Algo19 =>
      let t5 := v.op5.tick R (0)
      let t4 := v.op4.tick R (t5.1 * R.pi)
      let t3 := v.op3.tick R (t5.1 * R.pi)
      let t2 := v.op2.tick R (0)
      let t1 := v.op1.tick R (0)
      let t0 := v.op0.tick R (t1.1 * R.pi)
      (fun i => match i with
        | 0 => t0.1 | 1 => t1.1 | 2 => t2.1 | 3 => t3.1 | 4 => t4.1 | 5 => t5.1
        | _ => 0,
       (t4.1 + t3.1 + t2.1 + t0.1) * (1/4),
       { v with op0 := t0.2, op1 := t1.2, op2 := t2.2, op3 := t3.2,
                op4 := t4.2, op5 := t5.2 })
  | .Algo20 =>
      let t5 := v.op5.tick R (0)
      let t4 := v.op4.tick R (t5.1 * R.pi)
      let t3 := v.op3.tick R (t5.1 * R.pi)
      let t2 := v.op2.tick R (t5.1 * R.pi)
      let t1 := v.op1.tick R (0)
      let t0 := v.op0.tick R (t1.1 * R.pi)
      (fun i => match i with
        | 0 => t0.1 | 1 => t1.1 | 2 => t2.1 | 3 => t3.1 | 4 => t4.1 | 5 => t5.1
        | _ => 0,
       (t4.1 + t3.1 + t2.1 + t0.1) * (1/4),
       { v with op0 := t0.2, op1 := t1.2, op2 := t2.2, op3 := t3.2,
                op4 := t4.2, op5 := t5.2 })
  | .Algo21 =>
      let t5 := v.op5.tick R (0)
      let t4 := v.op4.tick R (t5.1 * R.pi)
      let t3 := v.op3.tick R (t5.1 * R.pi)
      let t2 := v.op2.tick R (0)
      let t1 := v.op1.tick R (t2.1 * R.pi)
      let t0 := v.op0.tick R (0)
      (fun i => match i with
        | 0 => t0.1 | 1 => t1.1 | 2 => t2.1 | 3 => t3.1 | 4 => t4.1 | 5 => t5.1
        | _ => 0,
       (t4.1 + t3.1 + t1.1 + t0.1) * (1/4),
       { v with op0 := t0.2, op1 := t1.2, op2 := t2.2, op3 := t3.2,
                op4 := t4.2, op5 := t5.2 })
  | .Algo22 =>
      let t5 := v.op5.tick R (0)
      let t4 := v.op4.tick R (t5.1 * R.pi)
      let t3 := v.op3.tick R (t4.1 * R.pi)
      let t2 := v.op2.tick R (0)
      let t1 := v.op1.tick R (0)
      let t0 := v.op0.tick R (0)
      (fun i => match i with
        | 0 => t0.1 | 1 => t1.1 | 2 => t2.1 | 3 => t3.1 | 4 => t4.1 | 5 => t5.1
        | _ => 0,
       (t3.1 + t2.1 + t1.1 + t0.1) * (1/4),
       { v with op0 := t0.2, op1 := t1.2, op2 := t2.2, op3 := t3.2,
                op4 := t4.2, op5 := t5.2 })
  | .Algo23 =>
      let t5 := v.op5.tick R (0)
      let t4 := v.op4.tick R (t5.1 * R.pi)
      let t3 := v.op3.tick R (0)
      let t2 := v.op2.tick R (0)
      let t1 := v.op1.tick R (0)
      let t0 := v.op0.tick R (t1.1 * R.pi)
      (fun i => match i with
        | 0 => t0.1 | 1 => t1.1 | 2 => t2.1 | 3 => t3.1 | 4 => t4.1 | 5 => t5.1
        | _ => 0,
       (t4.1 + t3.1 + t2.1 + t0.1) * (1/4),
       { v with op0 := t0.2, op1 := t1.2, op2 := t2.2, op3 := t3.2,
                op4 := t4.2, op5 := t5.2 })
  | .Algo24 =>
      let t5 := v.op5.tick R (0)
      let t4 := v.op4.tick R (t5.1 * R.pi)
      let t3 := v.op3.tick R (0)
      let t2 := v.op2.tick R (t3.1 * R.pi)
      let t1 := v.op1.tick R (0)
      let t0 := v.op0.tick R (0)
      (fun i => match i with
        | 0 => t0.1 | 1 => t1.1 | 2 => t2.1 | 3 => t3.1 | 4 => t4.1 | 5 => t5.1
        | _ => 0,
       (t4.1 + t2.1 + t1.1 + t0.1) * (1/4),
       { v with op0 := t0.2, op1 := t1.2, op2 := t2.2, op3 := t3.2,
                op4 := t4.2, op5 := t5.2 })
  | .Algo25 =>
      let t5 := v.op5.tick R (0)
      let t4 := v.op4.tick R (t5.1 * R.pi)
      let t3 := v.op3.tick R (0)
      let t2 := v.op2.tick R (0)
      let t1 := v.op1.tick R (0)
      let t0 := v.op0.tick R (0)
      (fun i => match i with
        | 0 => t0.1 | 1 => t1.1 | 2 => t2.1 | 3 => t3.1 | 4 => t4.1 | 5 => t5.1
        | _ => 0,
       (t4.1 + t3.1 + t2.1 + t1.1 + t0.1) / 5,
       { v with op0 := t0.2, op1 := t1.2, op2 := t2.2, op3 := t3.2,
                op4 := t4.2, op5 := t5.2 })
  | .Algo26 =>
      let t5 := v.op5.tick R (0)
      let t4 := v.op4.tick R (t5.1 * R.pi)
      let t3 := v.op3.tick R (0)
      let t2 := v.op2.tick R (t3.1 * R.pi)
      let t1 := v.op1.tick R (0)
      let t0 := v.op0.tick R (0)
      (fun i => match i with
        | 0 => t0.1 | 1 => t1.1 | 2 => t2.1 | 3 => t3.1 | 4 => t4.1 | 5 => t5.1
        | _ => 0,
       (t4.1 + t2.1 + t1.1 + t0.1) * (1/4),
       { v with op0 := t0.2, op1 := t1.2, op2 := t2.2, op3 := t3.2,
                op4 := t4.2, op5 := t5.2 })
  | .Algo27 =>
      let t5 := v.op5.tick R (0)
      let t4 := v.op4.tick R (t5.1 * R.pi)
      let t3 := v.op3.tick R (0)
      let t2 := v.op2.tick R (0)
      let t1 := v.op1.tick R (0)
      let t0 := v.op0.tick R (0)
      (fun i => match i with
        | 0 => t0.1 | 1 => t1.1 | 2 => t2.1 | 3 => t3.1 | 4 => t4.1 | 5 => t5.1
        | _ => 0,
       (t4.1 + t3.1 + t2.1 + t1.1 + t0.1) / 5,
       { v with op0 := t0.2, op1 := t1.2, op2 := t2.2, op3 := t3.2,
                op4 := t4.2, op5 := t5.2 })
  | .Algo28 =>
      let t5 := v.op5.tick R (0)
      let t4 := v.op4.tick R (t5.1 * R.pi)
      let t3 := v.op3.tick R (t4.1 * R.pi)
      let t2 := v.op2.tick R (0)
      let t1 := v.op1.tick R (0)
      let t0 := v.op0.tick R (0)
      (fun i => match i with
        | 0 => t0.1 | 1 => t1.1 | 2 => t2.1 | 3 => t3.1 | 4 => t4.1 | 5 => t5.1
        | _ => 0,
       (t3.1 + t2.1 + t1.1 + t0.1) * (1/4),
       { v with op0 := t0.2, op1 := t1.2, op2 := t2.2, op3 := t3.2,
                op4 := t4.2, op5 := t5.2 })
  | .Algo29 =>
      let t5 := v.op5.tick R (0)
      let t4 := v.op4.tick R (t5.1 * R.pi)
      let t3 := v.op3.tick R (0)
      let t2 := v.op2.tick R (0)
      let t1 := v.op1.tick R (0)
      let t0 := v.op0.tick R (0)
      (fun i => match i with
        | 0 => t0.1 | 1 => t1.1 | 2 => t2.1 | 3 => t3.1 | 4 => t4.1 | 5 => t5.1
        | _ => 0,
       (t4.1 + t3.1 + t2.1 + t1.1 + t0.1) / 5,
       { v with op0 := t0.2, op1 := t1.2, op2 := t2.2, op3 := t3.2,
                op4 := t4.2, op5 := t5.2 })
  | .Algo30 =>
      let t5 := v.op5.tick R (0)
      let t4 := v.op4.tick R (t5.1 * R.pi)
      let t3 := v.op3.tick R (t4.1 * R.pi)
      let t2 := v.op2.tick R (0)
      let t1 := v.op1.tick R (0)
      let t0 := v.op0.tick R (0)
      (fun i => match i with
        | 0 => t0.1 | 1 => t1.1 | 2 => t2.1 | 3 => t3.1 | 4 => t4.1 | 5 => t5.1
        | _ => 0,
       (t3.1 + t2.1 + t1.1 + t0.1) * (1/4),
       { v with op0 := t0.2, op1 := t1.2, op2 := t2.2, op3 := t3.2,
                op4 := t4.2, op5 := t5.2 })
  | .Algo31 =>
      let t5 := v.op5.tick R (0)
      let t4 := v.op4.tick R (t5.1 * R.pi)
      let t3 := v.op3.tick R (0)
      let t2 := v.op2.tick R (0)
      let t1 := v.op1.tick R (0)
      let t0 := v.op0.tick R (0)
      (fun i => match i with
        | 0 => t0.1 | 1 => t1.1 | 2 => t2.1 | 3 => t3.1 | 4 => t4.1 | 5 => t5.1
        | _ => 0,
       (t4.1 + t3.1 + t2.1 + t1.1 + t0.1) / 5,
       { v with op0 := t0.2, op1 := t1.2, op2 := t2.2, op3 := t3.2,
                op4 := t4.2, op5 := t5.2 })
  | .Algo32 =>
      let t5 := v.op5.tick R (0)
      let t4 := v.op4.tick R (0)
      let t3 := v.op3.tick R (0)
      let t2 := v.op2.tick R (0)
      let t1 := v.op1.tick R (0)
      let t0 := v.op0.tick R (0)
      (fun i => match i with
        | 0 => t0.1 | 1 => t1.1 | 2 => t2.1 | 3 => t3.1 | 4 => t4.1 | 5 => t5.1
        | _ => 0,
       (t5.1 + t4.1 + t3.1 + t2.1 + t1.1 + t0.1) / 6,
       { v with op0 := t0.2, op1 := t1.2, op2 := t2.2, op3 := t3.2,
                op4 := t4.2, op5 := t5.2 })

/-- `Fm6OpVoice::tick` — returns (sample, updated voice); inactive voices
return 0.0 untouched. -/
def Fm6OpVoice.tick (R : RMath) (v : Fm6OpVoice) : ℚ × Fm6OpVoice :=
  if v.active = false then (0, v)
  else
    let pa := v.processAlgorithm R
    let output := pa.2.1
    let v1 := pa.2.2
    let fstep : ℚ × Fm6OpVoice :=
      if v1.filter_enabled = true then
        let filt := (v1.filter.set_cutoff v1.filter_cutoff).set_resonance v1.filter_resonance
        let ftick := filt.tickFilter R output
        (ftick.1, { v1 with filter := ftick.2 })
      else (output, v1)
    let v2 := fstep.2
    let v3 := if v2.is_finished then { v2 with active := false } else v2
    (fstep.1, v3)

/-- `Fm6OpVoice::is_active`. -/
def Fm6OpVoice.is_active (v : Fm6OpVoice) : Bool := v.active

-- ===========================================================================
-- fm.rs — Fm6OpVoiceManager
-- ===========================================================================

/-- `Fm6OpVoiceManager` from fm.rs. -/
structure Fm6OpVoiceManager where
  voices : List Fm6OpVoice
  sample_rate : ℚ
  vibrato_lfo : Lfo
  vibrato_depth : ℚ
  master_volume : ℚ
deriving Repr

/-- `Fm6OpVoiceManager::new`. -/
def Fm6OpVoiceManager.new (num_voices : ℕ) (sample_rate : ℚ) : Fm6OpVoiceManager :=
  { voices := List.replicate num_voices (Fm6OpVoice.new sample_rate),
    sample_rate := sample_rate,
    vibrato_lfo := (Lfo.new sample_rate).set_frequency 5,
    vibrato_depth := 0, master_volume := 7/10 }

/-- The per-voice vibrato application of `Fm6OpVoiceManager::tick` —
overwrites every operator's stored frequency with `base_freq · vibrato`. -/
def Fm6OpVoice.applyVibrato (vibrato : ℚ) (v : Fm6OpVoice) : Fm6OpVoice :=
  let vib := fun (op : FmOperator) =>
    { op with oscillator := op.oscillator.set_frequency (op.oscillator.frequency * vibrato) }
  { v with op0 := vib v.op0, op1 := vib v.op1, op2 := vib v.op2,
           op3 := vib v.op3, op4 := vib v.op4, op5 := vib v.op5 }

/-- The voice loop of `Fm6OpVoiceManager::tick`. -/
def fm6TickVoices (R : RMath) (vibrato : ℚ) : List Fm6OpVoice → ℚ × List Fm6OpVoice
  | [] => (0, [])
  | v :: vs =>
    let v1 := if vibrato ≠ 1 ∧ v.is_active = true then v.applyVibrato vibrato else v
    let t := v1.tick R
    let rest := fm6TickVoices R vibrato vs
    (t.1 + rest.1, t.2 :: rest.2)

/-- `Fm6OpVoiceManager::tick`. -/
def Fm6OpVoiceManager.tick (R : RMath) (m : Fm6OpVoiceManager) : ℚ × Fm6OpVoiceManager :=
  let vibStep : ℚ × Lfo :=
    if m.vibrato_depth > 0 then
      let lt := m.vibrato_lfo.tick R
      let cents := lt.1 * m.vibrato_depth
      (R.pow2 (cents / 1200), lt.2)
    else (1, m.vibrato_lfo)
  let loop := fm6TickVoices R vibStep.1 m.voices
  (loop.1 * m.master_volume,
   { m with voices := loop.2, vibrato_lfo := vibStep.2 })


-- ===========================================================================
-- Concrete interpretations and states used by witnesses and counterexamples
-- ===========================================================================

/-- Interpretation with `pow2 ≡ 1` (agreeing with the real `2^0 = 1` at the
argument 0, the only point where the theorems below read it). -/
def rmZero : RMath := ⟨fun _ => 0, fun _ => 0, fun _ => 1, 0⟩

/-- Interpretation with `sin ≡ 1` and `pow2 ≡ 1`. -/
def rmSin1 : RMath := ⟨fun _ => 1, fun _ => 0, fun _ => 1, 0⟩

/-- Interpretation with `sin ≡ 1` and `pow2 ≡ 2`. -/
def rmVib : RMath := ⟨fun _ => 1, fun _ => 0, fun _ => 2, 0⟩

-- ===========================================================================
-- C3 — oscillator phase invariant
-- ===========================================================================

/-- An oscillator at sample rate 1 driven at frequency 5/2 (phase increment
5/2 > 1). -/
def c3osc : Oscillator := (Oscillator.new rmZero 1).set_frequency rmZero (5/2)

/-- C3 (counterexample): the claim "for any frequency, detune and
sample-rate setting a tick keeps the stored phase in [0,1)" fails: with
sample rate 1 and frequency 5/2 (detune 0) the phase increment is 5/2, and
a single tick takes the stored phase from 0 to 3/2, outside [0,1) — the
wrap in `Oscillator::tick_with_pm` subtracts 1 at most once. -/
theorem C3_phase_counterexample :
    (0 ≤ c3osc.phase ∧ c3osc.phase < 1) ∧
    ¬(0 ≤ (c3osc.tickOsc rmZero).2.phase ∧ (c3osc.tickOsc rmZero).2.phase < 1) := by
  have hosc : c3osc =
      { waveform := .Saw, frequency := 5/2, detune := 0, phase := 0,
        sample_rate := 1, phase_increment := 5/2 } := by
    norm_num [c3osc, Oscillator.new, Oscillator.set_frequency,
      Oscillator.update_phase_increment, rmZero]
  have hph : (c3osc.tickOsc rmZero).2.phase = 3/2 := by
    rw [hosc]
    norm_num [Oscillator.tickOsc, Oscillator.tick_with_pm]
  refine ⟨⟨?_, ?_⟩, ?_⟩
  · rw [hosc]
  · rw [hosc]; norm_num
  · rw [hph]; norm_num

/-- C3 (amended): if the stored phase is in [0,1) and the derived phase
increment lies in [0,1] — i.e. the detuned frequency is between 0 and the
sample rate — then after any single `tick()` or `tick_with_pm(pm)`, for any
phase-modulation input, the stored phase is again in [0,1). -/
theorem C3_phase_invariant (R : RMath) (o : Oscillator) (pm : ℚ)
    (h0 : 0 ≤ o.phase) (h1 : o.phase < 1)
    (h2 : 0 ≤ o.phase_increment) (h3 : o.phase_increment ≤ 1) :
    (0 ≤ (o.tick_with_pm R pm).2.phase ∧ (o.tick_with_pm R pm).2.phase < 1) ∧
    (0 ≤ (o.tickOsc R).2.phase ∧ (o.tickOsc R).2.phase < 1) := by
  have key : ∀ pm' : ℚ,
      0 ≤ (o.tick_with_pm R pm').2.phase ∧ (o.tick_with_pm R pm').2.phase < 1 := by
    intro pm'
    have hph : (o.tick_with_pm R pm').2.phase
        = if o.phase + o.phase_increment ≥ 1
          then o.phase + o.phase_increment - 1
          else o.phase + o.phase_increment := rfl
    rw [hph]
    split_ifs with hge
    · constructor <;> linarith
    · constructor <;> linarith
  exact ⟨key pm, key 0⟩

/-- A concrete oscillator with phase 1/2 and phase increment 3/4. -/
def c3oscW : Oscillator :=
  { waveform := .Saw, frequency := 440, detune := 0, phase := 1/2,
    sample_rate := 44100, phase_increment := 3/4 }

/-- Witness for C3_phase_invariant at a concrete oscillator. -/
theorem C3_phase_invariant_witness :
    (0 ≤ (c3oscW.tick_with_pm rmZero 3).2.phase ∧
      (c3oscW.tick_with_pm rmZero 3).2.phase < 1) ∧
    (0 ≤ (c3oscW.tickOsc rmZero).2.phase ∧ (c3oscW.tickOsc rmZero).2.phase < 1) :=
  C3_phase_invariant rmZero c3oscW 3 (by norm_num [c3oscW]) (by norm_num [c3oscW])
    (by norm_num [c3oscW]) (by norm_num [c3oscW])

-- ===========================================================================
-- C5 — envelope release behaviour
-- ===========================================================================

/-- C5: `release()` from any non-Idle stage snapshots `release_level` from
the current level and moves to Release, `release()` in Idle is a no-op;
in the Release stage with release time r > 0 each `tick()` subtracts
`(1/(r·sample_rate))·release_level` from the level, and the first tick at
which the level reaches 0.0001 or below clamps it to exactly 0 and moves
the stage to Idle. -/
theorem C5_envelope_release (e : Envelope) :
    (e.stage ≠ .Idle →
      e.doRelease = { e with stage := .Release, release_level := e.level }) ∧
    (e.stage = .Idle → e.doRelease = e) ∧
    (e.stage = .Release → 0 < e.release →
      ((e.level - 1 / (e.release * e.sample_rate) * e.release_level ≤ 1/10000 →
          e.tick = (0, { e with level := 0, stage := .Idle })) ∧
       (¬ e.level - 1 / (e.release * e.sample_rate) * e.release_level ≤ 1/10000 →
          e.tick = (e.level - 1 / (e.release * e.sample_rate) * e.release_level,
            { e with
              level := e.level - 1 / (e.release * e.sample_rate) * e.release_level })))) := by
  refine ⟨?_, ?_, ?_⟩
  · intro h
    simp [Envelope.doRelease, h]
  · intro h
    simp [Envelope.doRelease, h]
  · intro hst hr
    have hrate : e.calculate_rate e.release = 1 / (e.release * e.sample_rate) := by
      rw [Envelope.calculate_rate, if_neg (not_le.mpr hr)]
    have htick :
        e.tick = if e.level - 1 / (e.release * e.sample_rate) * e.release_level ≤ 1/10000
          then (0, { e with level := 0, stage := .Idle })
          else (e.level - 1 / (e.release * e.sample_rate) * e.release_level,
            { e with
              level := e.level - 1 / (e.release * e.sample_rate) * e.release_level }) := by
      simp only [Envelope.tick, hst, hrate]
    constructor <;> intro hcmp
    · rw [htick, if_pos hcmp]
    · rw [htick, if_neg hcmp]

/-- A concrete envelope sitting in Release: r = 1 s at sample rate 10,
level 1/2, release_level 1/2. -/
def c5env : Envelope :=
  { attack := 1, decay := 1, sustain := 7/10, release := 1,
    stage := .Release, level := 1/2, sample_rate := 10, release_level := 1/2 }

/-- The same envelope one decrement above the idle threshold. -/
def c5envLow : Envelope := { c5env with level := 1/20000 }

/-- Witness for C5_envelope_release: a Release tick above the threshold
subtracts the scaled rate; one that lands at or below 0.0001 clamps to 0
and goes Idle. -/
theorem C5_envelope_release_witness :
    (c5env.tick = (c5env.level - 1 / (c5env.release * c5env.sample_rate) * c5env.release_level,
      { c5env with
        level := c5env.level - 1 / (c5env.release * c5env.sample_rate) * c5env.release_level })) ∧
    (c5envLow.tick = (0, { c5envLow with level := 0, stage := .Idle })) ∧
    (c5env.doRelease = { c5env with stage := .Release, release_level := c5env.level }) :=
  ⟨((C5_envelope_release c5env).2.2 rfl (by norm_num [c5env])).2 (by norm_num [c5env]),
   ((C5_envelope_release c5envLow).2.2 rfl (by norm_num [c5envLow, c5env])).1
     (by norm_num [c5envLow, c5env]),
   (C5_envelope_release c5env).1 (by decide)⟩

-- ===========================================================================
-- C6 — subtractive mix normalization
-- ===========================================================================

/-- C6: with S the sum of the four per-voice source levels, the mixed
signal handed to the filter inside `Voice::tick` equals the plain sum of
the level-scaled sources whenever 0 < S ≤ 1, and that sum divided by S
whenever S > 1. -/
theorem C6_mix_normalization (v : Voice) (o1 o2 su no : ℚ) :
    (0 < v.osc1_level + v.osc2_level + v.sub_level + v.noise_level →
      v.osc1_level + v.osc2_level + v.sub_level + v.noise_level ≤ 1 →
      v.mixSignal o1 o2 su no = o1 + o2 + su + no) ∧
    (1 < v.osc1_level + v.osc2_level + v.sub_level + v.noise_level →
      v.mixSignal o1 o2 su no
        = (o1 + o2 + su + no)
          / (v.osc1_level + v.osc2_level + v.sub_level + v.noise_level)) := by
  constructor
  · intro hpos hle
    simp [Voice.mixSignal, not_lt.mpr hle, hpos]
  · intro hgt
    simp [Voice.mixSignal, hgt]

/-- A voice whose levels sum to 1. -/
def c6voiceA : Voice := Voice.new rmZero 44100

/-- A voice whose levels sum to 2. -/
def c6voiceB : Voice := { Voice.new rmZero 44100 with osc2_level := 1 }

/-- Witness for C6_mix_normalization on concrete level sums 1 and 2. -/
theorem C6_mix_normalization_witness :
    (c6voiceA.mixSignal 1 2 3 4 = 1 + 2 + 3 + 4) ∧
    (c6voiceB.mixSignal 1 2 3 4
      = (1 + 2 + 3 + 4)
        / (c6voiceB.osc1_level + c6voiceB.osc2_level + c6voiceB.sub_level
            + c6voiceB.noise_level)) :=
  ⟨(C6_mix_normalization c6voiceA 1 2 3 4).1 (by norm_num [c6voiceA, Voice.new])
      (by norm_num [c6voiceA, Voice.new]),
   (C6_mix_normalization c6voiceB 1 2 3 4).2 (by norm_num [c6voiceB, Voice.new])⟩

-- ===========================================================================
-- C9 — soft clipper boundedness
-- ===========================================================================

/-- `soft_clip` maps every rational input into [-1, 1]: inputs beyond ±1
are clamped and the cubic keeps [-1,1] inside itself. -/
theorem soft_clip_bounds (f : LadderFilter) (x : ℚ) :
    -1 ≤ f.soft_clip x ∧ f.soft_clip x ≤ 1 := by
  unfold LadderFilter.soft_clip
  split_ifs with hgt hlt
  · constructor <;> norm_num
  · constructor <;> norm_num
  · push_neg at hgt hlt
    constructor <;> nlinarith [sq_nonneg (x - 1), sq_nonneg (x + 1)]

/-- C9: `LadderFilter::soft_clip` always lands in [-1,1], hence both the
driven input and the resonance feedback term that enter the ladder's first
stage in `LadderFilter::tick` have magnitude at most 1, regardless of
drive, resonance, stage state and input. -/
theorem C9_soft_clip_bounded :
    (∀ (f : LadderFilter) (x : ℚ), -1 ≤ f.soft_clip x ∧ f.soft_clip x ≤ 1) ∧
    (∀ (f : LadderFilter) (input : ℚ), |f.driven_input input| ≤ 1) ∧
    (∀ (f : LadderFilter), |f.feedback_term| ≤ 1) := by
  refine ⟨soft_clip_bounds, fun f input => ?_, fun f => ?_⟩
  · have h := soft_clip_bounds f (input * f.drive)
    exact abs_le.mpr ⟨h.1, h.2⟩
  · have h := soft_clip_bounds f
      (f.resonance * LadderFilter.resScale f.slope
        * f.stageAt (min (f.slope.poles - 1) 3))
    exact abs_le.mpr ⟨h.1, h.2⟩

-- ===========================================================================
-- C10 — inactive voices tick to silence without state change
-- ===========================================================================

/-- C10: when the active flag is false, `Voice::tick`, `Fm4OpVoice::tick`
and `Fm6OpVoice::tick` all return exactly 0.0 and leave the voice
unchanged. -/
theorem C10_inactive_tick (R : RMath) (c : ℚ) (v : Voice)
    (w4 : Fm4OpVoice) (w6 : Fm6OpVoice)
    (hv : v.active = false) (h4 : w4.active = false) (h6 : w6.active = false) :
    v.tick R c = (0, v) ∧ w4.tick R = (0, w4) ∧ w6.tick R = (0, w6) := by
  refine ⟨?_, ?_, ?_⟩
  · simp [Voice.tick, hv]
  · simp [Fm4OpVoice.tick, h4]
  · simp [Fm6OpVoice.tick, h6]

/-- Witness for C10_inactive_tick on the freshly constructed voices (all
start inactive). -/
theorem C10_inactive_tick_witness :
    (Voice.new rmZero 44100).tick rmZero 1000 = (0, Voice.new rmZero 44100) ∧
    (Fm4OpVoice.new 44100).tick rmZero = (0, Fm4OpVoice.new 44100) ∧
    (Fm6OpVoice.new 44100).tick rmZero = (0, Fm6OpVoice.new 44100) :=
  C10_inactive_tick rmZero 1000 (Voice.new rmZero 44100) (Fm4OpVoice.new 44100)
    (Fm6OpVoice.new 44100) rfl rfl rfl

-- ===========================================================================
-- C8 — unknown controller numbers are ignored
-- ===========================================================================

/-- C8: `Synth::control_change` with a controller number outside
{1, 71, 72, 73, 74, 75, 123} leaves the whole synthesizer state — the
parameter struct and the voice manager with every voice — unchanged. -/
theorem C8_cc_ignored (s : Synth) (cc value : ℕ)
    (h : cc ∉ ([1, 71, 72, 73, 74, 75, 123] : List ℕ)) :
    s.control_change cc value = s := by
  simp only [List.mem_cons, List.not_mem_nil, or_false, not_or] at h
  obtain ⟨h1, h71, h72, h73, h74, h75, h123⟩ := h
  simp [Synth.control_change, h1, h71, h72, h73, h74, h75, h123]

/-- A concrete synth state. -/
def c8synth : Synth :=
  { voice_manager := VoiceManager.new rmZero 2 44100,
    params := SynthParams.default, sample_rate := 44100 }

/-- Witness for C8_cc_ignored: CC 5 is a no-op. -/
theorem C8_cc_ignored_witness : c8synth.control_change 5 64 = c8synth :=
  C8_cc_ignored c8synth 5 64 (by decide)

-- ===========================================================================
-- C4 — note_on and the osc2 frequency
-- ===========================================================================

/-- A fresh subtractive voice: `fm_amount = 0` (FM disengaged) and
`fm_ratio = 2` by default. -/
def c4voice : Voice := Voice.new rmZero 44100

/-- The voice after `note_on_with_bend(69, 1.0, 1.0)`. -/
def c4voiceOn : Voice := c4voice.note_on_with_bend rmZero 69 1 1

/-- C4 (evaluation at the failing input): with FM disengaged
(`fm_amount = 0`) and the default `fm_ratio = 2`, `note_on_with_bend` on
note 69 with bend 1 sets osc1 to 440 Hz and the sub-oscillator to 220 Hz,
resets the three phases and triggers both envelopes as claimed — but sets
osc2 to `440 · fm_ratio = 880` Hz, not to the 440 Hz base frequency that
the claim (and the comment in the source) promises for the non-FM mode. -/
theorem C4_osc2_frequency_bug :
    c4voice.fm_amount = 0 ∧
    c4voiceOn.osc1.frequency = 440 ∧
    c4voiceOn.sub_osc.frequency = 220 ∧
    c4voiceOn.osc2.frequency = 880 ∧
    c4voiceOn.osc2.frequency ≠ c4voiceOn.osc1.frequency ∧
    c4voiceOn.osc1.phase = 0 ∧
    c4voiceOn.osc2.phase = 0 ∧
    c4voiceOn.sub_osc.phase = 0 ∧
    c4voiceOn.amp_env.stage = .Attack ∧
    c4voiceOn.filter_env.stage = .Attack ∧
    c4voiceOn.active = true := by
  norm_num [c4voiceOn, c4voice, Voice.new, Voice.note_on_with_bend, midi_to_freq,
    rmZero, Oscillator.new, Oscillator.set_frequency, Oscillator.update_phase_increment,
    Oscillator.resetOsc, Envelope.new, Envelope.trigger]

-- ===========================================================================
-- C1 — carrier mixing vs the carriers() table
-- ===========================================================================

/-- For the 4-operator engine the claim does hold: in every one of the 8
`FmAlgorithm` variants the pre-filter output of the algorithm dispatch is
exactly the sum of the outputs of the operators in `carriers()`, divided
by the number of carriers. -/
theorem fm4_mix_matches_carriers (R : RMath) (v : Fm4OpVoice) :
    (v.processAlgorithm R).2.1
      = ((v.algorithm.carriers.map (v.processAlgorithm R).1).sum)
        / (v.algorithm.carriers.length : ℚ) := by
  cases halg : v.algorithm <;>
    simp [Fm4OpVoice.processAlgorithm, FmAlgorithm.carriers, halg] <;> ring

/-- An `FmOperator` held in Sustain with the given level and sustain 1,
velocity sensitivity 0, no feedback: under `rmSin1` its per-pass output is
exactly `level`. -/
def c1op (level : ℚ) : FmOperator :=
  { FmOperator.new 44100 with
    level := level, velocity_sens := 0,
    envelope := { Envelope.new 44100 with stage := .Sustain, sustain := 1, level := 1 } }

/-- An active 6-op voice on `Dx7Algorithm::Algo2` whose OP1 (index 0)
produces 1 and whose other operators produce 0. -/
def c1voice : Fm6OpVoice :=
  { Fm6OpVoice.new 44100 with
    algorithm := .Algo2, active := true,
    op0 := c1op 1, op1 := c1op 0, op2 := c1op 0,
    op3 := c1op 0, op4 := c1op 0, op5 := c1op 0 }

/-- C1 (evaluation at the failing input): on `Dx7Algorithm::Algo2` the
voice's tick returns the pre-filter sample `(out₁ + out₀)·0.5 = 1/2`,
mixing operator 1 — which is not in `carriers() = [0]` — into the audible
output, while the average over the declared carrier set is `out₀/1 = 1`.
The pre-filter sample therefore differs from the carrier average. -/
theorem C1_dx7_algo2_mix_bug :
    (c1voice.tick rmSin1).1 = 1/2 ∧
    (c1voice.processAlgorithm rmSin1).2.1 = 1/2 ∧
    ((Dx7Algorithm.Algo2.carriers.map (c1voice.processAlgorithm rmSin1).1).sum)
        / (Dx7Algorithm.Algo2.carriers.length : ℚ) = 1 ∧
    (c1voice.processAlgorithm rmSin1).2.1
      ≠ ((Dx7Algorithm.Algo2.carriers.map (c1voice.processAlgorithm rmSin1).1).sum)
          / (Dx7Algorithm.Algo2.carriers.length : ℚ) := by
  have hmix : (c1voice.processAlgorithm rmSin1).2.1 = 1/2 := by
    norm_num [c1voice, c1op, Fm6OpVoice.new, Fm6OpVoice.processAlgorithm,
      FmOperator.new, FmOperator.tick, FmOscillator.new, FmOscillator.tick,
      Envelope.new, Envelope.tick, rmSin1, Dx7Algorithm.carriers]
  have hcar :
      ((Dx7Algorithm.Algo2.carriers.map (c1voice.processAlgorithm rmSin1).1).sum)
        / (Dx7Algorithm.Algo2.carriers.length : ℚ) = 1 := by
    norm_num [c1voice, c1op, Fm6OpVoice.new, Fm6OpVoice.processAlgorithm,
      FmOperator.new, FmOperator.tick, FmOscillator.new, FmOscillator.tick,
      Envelope.new, Envelope.tick, rmSin1, Dx7Algorithm.carriers]
  have htick : (c1voice.tick rmSin1).1 = 1/2 := by
    norm_num [Fm6OpVoice.tick, c1voice, c1op, Fm6OpVoice.new, Fm6OpVoice.processAlgorithm,
      FmOperator.new, FmOperator.tick, FmOscillator.new, FmOscillator.tick,
      Envelope.new, Envelope.tick, rmSin1, Dx7Algorithm.carriers,
      Fm6OpVoice.is_finished, Fm6OpVoice.opAt, FmOperator.is_finished, Envelope.is_idle]
  refine ⟨htick, hmix, hcar, ?_⟩
  rw [hmix, hcar]
  norm_num

-- ===========================================================================
-- C2 — vibrato is persisted into the stored frequencies
-- ===========================================================================

/-- A 4-op voice held in Sustain (so a tick keeps it active), operator
oscillators at their fresh 440 Hz. -/
def c2voice : Fm4OpVoice :=
  { Fm4OpVoice.new 44100 with
    active := true,
    op0 := c1op 1, op1 := c1op 0, op2 := c1op 0, op3 := c1op 0 }

/-- A one-voice 4-op manager with vibrato depth 50 cents. -/
def c2mgr : Fm4OpVoiceManager :=
  { voices := [c2voice], sample_rate := 44100,
    vibrato_lfo := (Lfo.new 44100).set_frequency 5,
    vibrato_depth := 50, master_volume := 7/10 }

/-- C2 (evaluation at the failing input): with vibrato depth 50 and an
interpretation where the LFO reads 1 and the cent-to-multiplier conversion
yields 2, one manager tick overwrites the stored operator frequency
440 → 880, and a second tick compounds it to 1760: the multiplier is
persisted in the operator's stored base frequency, not transient. -/
theorem C2_vibrato_persists :
    c2mgr.voices.map (fun v => v.op0.oscillator.frequency) = [440] ∧
    ((c2mgr.tick rmVib).2).voices.map (fun v => v.op0.oscillator.frequency) = [880] ∧
    ((((c2mgr.tick rmVib).2).tick rmVib).2).voices.map
        (fun v => v.op0.oscillator.frequency) = [1760] := by
  refine ⟨?_, ?_, ?_⟩
  · norm_num [c2mgr, c2voice, c1op, Fm4OpVoice.new, FmOperator.new, FmOscillator.new]
  · norm_num [c2mgr, c2voice, c1op, Fm4OpVoiceManager.tick, fm4TickVoices,
      Fm4OpVoice.new, Fm4OpVoice.applyVibrato, Fm4OpVoice.tick, Fm4OpVoice.is_active,
      Fm4OpVoice.processAlgorithm, Fm4OpVoice.is_finished, Fm4OpVoice.opAt,
      FmOperator.new, FmOperator.tick, FmOperator.is_finished,
      FmOscillator.new, FmOscillator.tick, FmOscillator.set_frequency,
      Envelope.new, Envelope.tick, Envelope.is_idle,
      Lfo.new, Lfo.set_frequency, Lfo.update_phase_increment, Lfo.tick,
      clampQ, rmVib, FmAlgorithm.carriers]
  · norm_num [c2mgr, c2voice, c1op, Fm4OpVoiceManager.tick, fm4TickVoices,
      Fm4OpVoice.new, Fm4OpVoice.applyVibrato, Fm4OpVoice.tick, Fm4OpVoice.is_active,
      Fm4OpVoice.processAlgorithm, Fm4OpVoice.is_finished, Fm4OpVoice.opAt,
      FmOperator.new, FmOperator.tick, FmOperator.is_finished,
      FmOscillator.new, FmOscillator.tick, FmOscillator.set_frequency,
      Envelope.new, Envelope.tick, Envelope.is_idle,
      Lfo.new, Lfo.set_frequency, Lfo.update_phase_increment, Lfo.tick,
      clampQ, rmVib, FmAlgorithm.carriers]

-- ===========================================================================
-- C7 — voice allocation, stealing and retrigger
-- ===========================================================================

/-- `note_on_with_bend` marks the voice active. -/
theorem note_on_with_bend_active (R : RMath) (v : Voice) (n : ℕ) (vel bend : ℚ) :
    (v.note_on_with_bend R n vel bend).active = true := rfl

/-- `note_on_with_bend` stores the played note. -/
theorem note_on_with_bend_note (R : RMath) (v : Voice) (n : ℕ) (vel bend : ℚ) :
    (v.note_on_with_bend R n vel bend).note = n := rfl

/-- The retrigger scan finds nothing when no voice is active on `n`. -/
theorem retriggerSame_eq_none (R : RMath) (bend : ℚ) (n : ℕ) (vel : ℚ)
    (l : List Voice) (h : ∀ v ∈ l, ¬(v.active = true ∧ v.note = n)) :
    retriggerSame R bend n vel l = none := by
  induction l with
  | nil => rfl
  | cons v vs ih =>
    simp only [retriggerSame]
    rw [if_neg (h v (List.mem_cons_self v vs)),
      ih (fun u hu => h u (List.mem_cons_of_mem v hu))]
    rfl

/-- When some voice is active on `n`, the retrigger scan splits the pool at
the first such voice and replays the note into it. -/
theorem retriggerSame_spec (R : RMath) (bend : ℚ) (n : ℕ) (vel : ℚ)
    (l : List Voice) (h : ∃ v ∈ l, v.active = true ∧ v.note = n) :
    ∃ pre w suf, l = pre ++ w :: suf ∧
      (∀ u ∈ pre, ¬(u.active = true ∧ u.note = n)) ∧
      w.active = true ∧ w.note = n ∧
      retriggerSame R bend n vel l
        = some (pre ++ w.note_on_with_bend R n vel bend :: suf) := by
  induction l with
  | nil => simp at h
  | cons v vs ih =>
    by_cases hv : v.active = true ∧ v.note = n
    · refine ⟨[], v, vs, rfl, by simp, hv.1, hv.2, ?_⟩
      simp only [retriggerSame, if_pos hv, List.nil_append]
    · have h' : ∃ w ∈ vs, w.active = true ∧ w.note = n := by
        obtain ⟨w, hw, hwp⟩ := h
        rcases List.mem_cons.mp hw with hwv | hwvs
        · exact absurd (hwv ▸ hwp) hv
        · exact ⟨w, hwvs, hwp⟩
      obtain ⟨pre, w, suf, hsplit, hpre, hw1, hw2, heq⟩ := ih h'
      refine ⟨v :: pre, w, suf, by rw [hsplit]; rfl, ?_, hw1, hw2, ?_⟩
      · intro u hu
        rcases List.mem_cons.mp hu with huv | hup
        · exact huv ▸ hv
        · exact hpre u hup
      · simp only [retriggerSame, if_neg hv, heq]
        rfl

/-- The allocation scan finds nothing in a fully active pool. -/
theorem allocPlay_eq_none (R : RMath) (bend : ℚ) (n : ℕ) (vel : ℚ)
    (l : List Voice) (h : ∀ v ∈ l, v.active = true) :
    allocPlay R bend n vel l = none := by
  induction l with
  | nil => rfl
  | cons v vs ih =>
    simp only [allocPlay]
    rw [if_neg (by simp [h v (List.mem_cons_self v vs)]),
      ih (fun u hu => h u (List.mem_cons_of_mem v hu))]
    rfl

/-- The allocation scan skips an active prefix and fills the first
inactive voice. -/
theorem allocPlay_append (R : RMath) (bend : ℚ) (n : ℕ) (vel : ℚ) (w : Voice)
    (hw : w.active = false) (A B : List Voice) (hA : ∀ v ∈ A, v.active = true) :
    allocPlay R bend n vel (A ++ w :: B)
      = some (A ++ w.note_on_with_bend R n vel bend :: B) := by
  induction A with
  | nil =>
    simp only [List.nil_append, allocPlay, if_pos hw]
  | cons a A' ih =>
    simp only [List.cons_append, allocPlay, List.append_eq]
    rw [if_neg (by simp [hA a (List.mem_cons_self a A')]),
      ih (fun u hu => hA u (List.mem_cons_of_mem a hu))]
    rfl

/-- A fresh note played into a pool made of an active prefix (holding
other notes) followed by inactive voices goes to the first inactive
voice. -/
theorem noteOnVoices_fresh (R : RMath) (bend : ℚ) (n : ℕ) (vel : ℚ)
    (A : List Voice) (w : Voice) (B : List Voice)
    (hA : ∀ v ∈ A, v.active = true) (hAn : ∀ v ∈ A, v.note ≠ n)
    (hwB : ∀ v ∈ w :: B, v.active = false) :
    noteOnVoices R bend n vel (A ++ w :: B)
      = A ++ w.note_on_with_bend R n vel bend :: B := by
  have hnone : retriggerSame R bend n vel (A ++ w :: B) = none := by
    apply retriggerSame_eq_none
    intro v hv
    rcases List.mem_append.mp hv with hvA | hvB
    · exact fun hc => hAn v hvA hc.2
    · intro hc
      have hfa := hwB v hvB
      rw [hfa] at hc
      exact Bool.false_ne_true hc.1
  have halloc := allocPlay_append R bend n vel w
    (hwB w (List.mem_cons_self w B)) A B hA
  simp only [noteOnVoices, hnone, halloc]

/-- A successful retrigger scan preserves the pool size. -/
theorem retriggerSame_some_length (R : RMath) (bend : ℚ) (n : ℕ) (vel : ℚ)
    (l l' : List Voice) (h : retriggerSame R bend n vel l = some l') :
    l'.length = l.length := by
  induction l generalizing l' with
  | nil => simp [retriggerSame] at h
  | cons v vs ih =>
    simp only [retriggerSame] at h
    by_cases hv : v.active = true ∧ v.note = n
    · rw [if_pos hv] at h
      cases h
      simp
    · rw [if_neg hv] at h
      rcases hmap : retriggerSame R bend n vel vs with _ | l''
      · rw [hmap] at h
        simp at h
      · rw [hmap] at h
        have hcons : v :: l'' = l' := by simpa using h
        rw [← hcons]
        simp [ih l'' hmap]

/-- A successful allocation scan preserves the pool size. -/
theorem allocPlay_some_length (R : RMath) (bend : ℚ) (n : ℕ) (vel : ℚ)
    (l l' : List Voice) (h : allocPlay R bend n vel l = some l') :
    l'.length = l.length := by
  induction l generalizing l' with
  | nil => simp [allocPlay] at h
  | cons v vs ih =>
    simp only [allocPlay] at h
    by_cases hv : v.active = false
    · rw [if_pos hv] at h
      cases h
      simp
    · rw [if_neg hv] at h
      rcases hmap : allocPlay R bend n vel vs with _ | l''
      · rw [hmap] at h
        simp at h
      · rw [hmap] at h
        have hcons : v :: l'' = l' := by simpa using h
        rw [← hcons]
        simp [ih l'' hmap]

/-- `note_on` never changes the pool size. -/
theorem noteOnVoices_length (R : RMath) (bend : ℚ) (n : ℕ) (vel : ℚ)
    (l : List Voice) : (noteOnVoices R bend n vel l).length = l.length := by
  rcases h1 : retriggerSame R bend n vel l with _ | l'
  · rcases h2 : allocPlay R bend n vel l with _ | l''
    · cases l with
      | nil => simp [noteOnVoices, h1, h2]
      | cons v vs => simp [noteOnVoices, h1, h2]
    · simp only [noteOnVoices, h1, h2]
      exact allocPlay_some_length R bend n vel l l'' h2
  · simp only [noteOnVoices, h1]
    exact retriggerSame_some_length R bend n vel l l' h1

/-- Sequential note-ons over a list of (note, velocity) pairs, acting on
the raw voice list with a fixed bend multiplier. -/
def noteOnFold (R : RMath) (bend : ℚ) (ns : List (ℕ × ℚ)) (l : List Voice) :
    List Voice :=
  ns.foldl (fun acc p => noteOnVoices R bend p.1 p.2 acc) l

/-- Sequential `VoiceManager::note_on` calls. -/
def VoiceManager.noteOnSeq (R : RMath) (ns : List (ℕ × ℚ)) (m : VoiceManager) :
    VoiceManager :=
  ns.foldl (fun acc p => acc.note_on R p.1 p.2) m

/-- `noteOnSeq` only rewrites the voice list (with the constant bend
multiplier of the unchanged pitch-bend state). -/
theorem noteOnSeq_voices (R : RMath) (ns : List (ℕ × ℚ)) (m : VoiceManager) :
    (VoiceManager.noteOnSeq R ns m).voices
      = noteOnFold R (m.pitch_bend_multiplier R) ns m.voices ∧
    (VoiceManager.noteOnSeq R ns m).pitch_bend = m.pitch_bend := by
  induction ns generalizing m with
  | nil => exact ⟨rfl, rfl⟩
  | cons p rest ih =>
    have h2 := ih (m.note_on R p.1 p.2)
    exact ⟨h2.1, h2.2⟩

/-- Playing distinct fresh notes into an all-inactive suffix fills its
voices one by one, in order, leaving an active prefix untouched. -/
theorem noteOnFold_fresh (R : RMath) (bend : ℚ) (ns : List (ℕ × ℚ)) :
    ∀ (A B : List Voice),
      (∀ v ∈ A, v.active = true) →
      (∀ v ∈ A, v.note ∉ ns.map Prod.fst) →
      (∀ v ∈ B, v.active = false) →
      (ns.map Prod.fst).Nodup →
      ns.length = B.length →
      noteOnFold R bend ns (A ++ B)
        = A ++ List.zipWith (fun p v => v.note_on_with_bend R p.1 p.2 bend) ns B := by
  induction ns with
  | nil =>
    intro A B _ _ _ _ hlen
    cases B with
    | nil => simp [noteOnFold]
    | cons b B' => simp at hlen
  | cons p rest ih =>
    intro A B hA hAn hB hnodup hlen
    cases B with
    | nil => simp at hlen
    | cons w B' =>
      have hstep := noteOnVoices_fresh R bend p.1 p.2 A w B' hA
        (fun v hv => by
          have hmem := hAn v hv
          simp only [List.map_cons, List.mem_cons, not_or] at hmem
          exact hmem.1)
        hB
      have hA' : ∀ v ∈ A ++ [w.note_on_with_bend R p.1 p.2 bend], v.active = true := by
        intro v hv
        rcases List.mem_append.mp hv with hvA | hvn
        · exact hA v hvA
        · rw [List.mem_singleton.mp hvn]
          rfl
      have hAn' : ∀ v ∈ A ++ [w.note_on_with_bend R p.1 p.2 bend],
          v.note ∉ rest.map Prod.fst := by
        intro v hv
        rcases List.mem_append.mp hv with hvA | hvn
        · have hmem := hAn v hvA
          simp only [List.map_cons, List.mem_cons, not_or] at hmem
          exact hmem.2
        · rw [List.mem_singleton.mp hvn]
          have hnd := hnodup
          simp only [List.map_cons, List.nodup_cons] at hnd
          exact hnd.1
      have hB' : ∀ v ∈ B', v.active = false :=
        fun v hv => hB v (List.mem_cons_of_mem w hv)
      have hnodup' : (rest.map Prod.fst).Nodup := by
        simp only [List.map_cons, List.nodup_cons] at hnodup
        exact hnodup.2
      have hlen' : rest.length = B'.length := by
        simpa using hlen
      have hchain : noteOnFold R bend (p :: rest) (A ++ w :: B')
          = noteOnFold R bend rest (noteOnVoices R bend p.1 p.2 (A ++ w :: B')) := rfl
      rw [hchain, hstep,
        show A ++ w.note_on_with_bend R p.1 p.2 bend :: B'
            = (A ++ [w.note_on_with_bend R p.1 p.2 bend]) ++ B' by simp,
        ih (A ++ [w.note_on_with_bend R p.1 p.2 bend]) B' hA' hAn' hB' hnodup' hlen']
      simp

/-- Every voice produced by the zipWith of fresh note-ons is active. -/
theorem zipWith_noteOn_active (R : RMath) (bend : ℚ) (ns : List (ℕ × ℚ)) :
    ∀ (B : List Voice),
      ∀ v ∈ List.zipWith (fun p w => w.note_on_with_bend R p.1 p.2 bend) ns B,
        v.active = true := by
  induction ns with
  | nil =>
    intro B v hv
    simp at hv
  | cons p rest ih =>
    intro B v hv
    cases B with
    | nil => simp at hv
    | cons w B' =>
      rcases List.mem_cons.mp hv with h | h
      · rw [h]
        rfl
      · exact ih B' v h

/-- C7: for a subtractive voice pool of size N — (1) `note_on` keeps the
pool size and never lets the active count exceed N; (2) from an
all-inactive pool, playing N pairwise distinct notes activates the N
voices in order, each holding its own note, with no stealing, for an
active count of exactly N; (3) a further fresh note into a fully active
pool steals the first pool voice, the count staying N; (4) a note already
sounding is replayed into the first voice holding it and the active count
is unchanged. -/
theorem C7_voice_allocation (R : RMath) :
    (∀ (m : VoiceManager) (n : ℕ) (vel : ℚ),
      (m.note_on R n vel).voices.length = m.voices.length ∧
      (m.note_on R n vel).active_voice_count ≤ m.voices.length) ∧
    (∀ (m : VoiceManager) (ns : List (ℕ × ℚ)),
      (∀ v ∈ m.voices, v.active = false) →
      (ns.map Prod.fst).Nodup →
      ns.length = m.voices.length →
      (VoiceManager.noteOnSeq R ns m).voices
        = List.zipWith
            (fun p v => v.note_on_with_bend R p.1 p.2 (m.pitch_bend_multiplier R))
            ns m.voices ∧
      (VoiceManager.noteOnSeq R ns m).active_voice_count = m.voices.length) ∧
    (∀ (m : VoiceManager) (n : ℕ) (vel : ℚ) (v : Voice) (vs : List Voice),
      m.voices = v :: vs →
      (∀ w ∈ m.voices, w.active = true) →
      (∀ w ∈ m.voices, w.note ≠ n) →
      (m.note_on R n vel).voices
        = v.note_on_with_bend R n vel (m.pitch_bend_multiplier R) :: vs ∧
      (m.note_on R n vel).active_voice_count = m.voices.length) ∧
    (∀ (m : VoiceManager) (n : ℕ) (vel : ℚ),
      (∃ w ∈ m.voices, w.active = true ∧ w.note = n) →
      (∃ pre w suf, m.voices = pre ++ w :: suf ∧
        (∀ u ∈ pre, ¬(u.active = true ∧ u.note = n)) ∧
        w.active = true ∧ w.note = n ∧
        (m.note_on R n vel).voices
          = pre ++ w.note_on_with_bend R n vel (m.pitch_bend_multiplier R) :: suf) ∧
      (m.note_on R n vel).active_voice_count = m.active_voice_count) := by
  refine ⟨?_, ?_, ?_, ?_⟩
  · intro m n vel
    have hlen : (m.note_on R n vel).voices.length = m.voices.length :=
      noteOnVoices_length R (m.pitch_bend_multiplier R) n vel m.voices
    refine ⟨hlen, ?_⟩
    calc (m.note_on R n vel).active_voice_count
        ≤ (m.note_on R n vel).voices.length := List.countP_le_length _
      _ = m.voices.length := hlen
  · intro m ns hinact hnodup hlen
    have hfold := noteOnFold_fresh R (m.pitch_bend_multiplier R) ns [] m.voices
      (by simp) (by simp) hinact hnodup hlen
    simp only [List.nil_append] at hfold
    have hvoices : (VoiceManager.noteOnSeq R ns m).voices
        = List.zipWith
            (fun p v => v.note_on_with_bend R p.1 p.2 (m.pitch_bend_multiplier R))
            ns m.voices := by
      rw [(noteOnSeq_voices R ns m).1, hfold]
    refine ⟨hvoices, ?_⟩
    unfold VoiceManager.active_voice_count
    rw [hvoices, List.countP_eq_length.mpr
      (fun a ha => zipWith_noteOn_active R (m.pitch_bend_multiplier R) ns m.voices a ha)]
    rw [List.length_zipWith, hlen, min_self]
  · intro m n vel v vs hv hact hnote
    have hact' : ∀ w ∈ v :: vs, w.active = true := hv ▸ hact
    have hnone : retriggerSame R (m.pitch_bend_multiplier R) n vel (v :: vs) = none :=
      retriggerSame_eq_none _ _ _ _ _
        (fun u hu hc => hnote u (hv ▸ hu) hc.2)
    have hanone : allocPlay R (m.pitch_bend_multiplier R) n vel (v :: vs) = none :=
      allocPlay_eq_none _ _ _ _ _ hact'
    have hvoices : (m.note_on R n vel).voices
        = v.note_on_with_bend R n vel (m.pitch_bend_multiplier R) :: vs := by
      show noteOnVoices R (m.pitch_bend_multiplier R) n vel m.voices = _
      rw [hv]
      simp only [noteOnVoices, hnone, hanone]
    refine ⟨hvoices, ?_⟩
    unfold VoiceManager.active_voice_count
    rw [hvoices, hv]
    rw [List.countP_eq_length.mpr ?hall]
    · simp
    case hall =>
      intro a ha
      rcases List.mem_cons.mp ha with h | h
      · rw [h]
        rfl
      · exact hact' a (List.mem_cons_of_mem v h)
  · intro m n vel hex
    obtain ⟨pre, w, suf, hsplit, hpre, hw1, hw2, heq⟩ :=
      retriggerSame_spec R (m.pitch_bend_multiplier R) n vel m.voices hex
    have hvoices : (m.note_on R n vel).voices
        = pre ++ w.note_on_with_bend R n vel (m.pitch_bend_multiplier R) :: suf := by
      show noteOnVoices R (m.pitch_bend_multiplier R) n vel m.voices = _
      simp only [noteOnVoices, heq]
    refine ⟨⟨pre, w, suf, hsplit, hpre, hw1, hw2, hvoices⟩, ?_⟩
    unfold VoiceManager.active_voice_count
    rw [hvoices, hsplit]
    simp [List.countP_append, List.countP_cons, hw1, note_on_with_bend_active]

/-- A two-voice all-inactive pool. -/
def c7mgr : VoiceManager :=
  { voices := [Voice.new rmZero 44100, Voice.new rmZero 44100],
    sample_rate := 44100, pitch_bend := 0, pitch_bend_range := 2 }

/-- An active voice holding note `n`. -/
def c7voiceA (n : ℕ) : Voice :=
  { Voice.new rmZero 44100 with active := true, note := n }

/-- A two-voice pool fully active on notes 60 and 64. -/
def c7mgrFull : VoiceManager :=
  { voices := [c7voiceA 60, c7voiceA 64],
    sample_rate := 44100, pitch_bend := 0, pitch_bend_range := 2 }

/-- Witness for C7_voice_allocation on concrete two-voice pools. -/
theorem C7_voice_allocation_witness :
    ((c7mgr.note_on rmZero 60 1).voices.length = c7mgr.voices.length ∧
      (c7mgr.note_on rmZero 60 1).active_voice_count ≤ c7mgr.voices.length) ∧
    ((VoiceManager.noteOnSeq rmZero [(60, 1), (64, 1)] c7mgr).voices
        = List.zipWith
            (fun p v => v.note_on_with_bend rmZero p.1 p.2
              (c7mgr.pitch_bend_multiplier rmZero))
            [(60, 1), (64, 1)] c7mgr.voices ∧
      (VoiceManager.noteOnSeq rmZero [(60, 1), (64, 1)] c7mgr).active_voice_count
        = c7mgr.voices.length) ∧
    ((c7mgrFull.note_on rmZero 72 1).voices
        = (c7voiceA 60).note_on_with_bend rmZero 72 1
            (c7mgrFull.pitch_bend_multiplier rmZero) :: [c7voiceA 64] ∧
      (c7mgrFull.note_on rmZero 72 1).active_voice_count = c7mgrFull.voices.length) ∧
    ((∃ pre w suf, c7mgrFull.voices = pre ++ w :: suf ∧
        (∀ u ∈ pre, ¬(u.active = true ∧ u.note = 64)) ∧
        w.active = true ∧ w.note = 64 ∧
        (c7mgrFull.note_on rmZero 64 1).voices
          = pre ++ w.note_on_with_bend rmZero 64 1
              (c7mgrFull.pitch_bend_multiplier rmZero) :: suf) ∧
      (c7mgrFull.note_on rmZero 64 1).active_voice_count
        = c7mgrFull.active_voice_count) :=
  ⟨(C7_voice_allocation rmZero).1 c7mgr 60 1,
   (C7_voice_allocation rmZero).2.1 c7mgr [(60, 1), (64, 1)]
     (by intro v hv
         rcases List.mem_cons.mp hv with h | h
         · rw [h]; rfl
         · rw [List.mem_singleton.mp h]; rfl)
     (by simp) rfl,
   (C7_voice_allocation rmZero).2.2.1 c7mgrFull 72 1 (c7voiceA 60) [c7voiceA 64] rfl
     (by intro w hw
         rcases List.mem_cons.mp hw with h | h
         · rw [h]; rfl
         · rw [List.mem_singleton.mp h]; rfl)
     (by intro w hw
         rcases List.mem_cons.mp hw with h | h
         · rw [h]; simp [c7voiceA]
         · rw [List.mem_singleton.mp h]; simp [c7voiceA]),
   (C7_voice_allocation rmZero).2.2.2 c7mgrFull 64 1
     ⟨c7voiceA 64, by simp [c7mgrFull], rfl, rfl⟩⟩

end Ossian19

